import Mathlib

/-!
Verification of the Blue-Cloud → EOSC metadata mapping engine
(`mapping.py`, function `extract_bluecloud_metadata` and its helpers).

The Python source is shallowly embedded: strings are Lean `String`s and the
character-level Python operations (`strip`, `split`, `replace`, `rstrip`,
`lower`, `startswith`, containment) are modelled as executable functions on
`List Char`.  Python exceptions (`KeyError`, `ValueError`, `TypeError`,
`UnboundLocalError`/`NameError`) are modelled with `Except String`.
Variables that Python leaves unassigned on some paths are modelled as
`Option` (reading `none` corresponds to the unbound-variable error).
Validator functions append their failure messages to an explicit
`collected_messages` list, exactly as the source does; messages that the
source only sends to the logger (via `LOGGER.debug` / `LOGGER.warning` /
`LOGGER.error`) are kept on a separate "log" channel where a claim needs
them, and are dropped where they cannot be observed.
-/

/-- Python `str.strip()`: drop leading and trailing whitespace. -/
def pyStrip (s : String) : String :=
  ⟨((s.data.dropWhile Char.isWhitespace).reverse.dropWhile Char.isWhitespace).reverse⟩

/-- Python `str.rstrip(')')`: drop every trailing `')'`. -/
def pyRstripParen (s : String) : String :=
  ⟨(s.data.reverse.dropWhile (fun c => c = ')')).reverse⟩

/-- Python `str.lower()` (the source only lowercases ASCII vocabulary keys). -/
def pyLower (s : String) : String :=
  ⟨s.data.map Char.toLower⟩

/-- Python `str.startswith(p)`. -/
def pyStartsWith (s p : String) : Bool :=
  p.data.isPrefixOf s.data

/-- Python substring containment `pat in s` (for non-empty `pat`). -/
def containsCA (pat : List Char) : List Char → Bool
  | [] => pat.isEmpty
  | c :: rest => pat.isPrefixOf (c :: rest) || containsCA pat rest

/-- Python substring containment on `String`. -/
def pyContains (s pat : String) : Bool :=
  containsCA pat.data s.data

/-- Splitting worker: leftmost, non-overlapping matches of `pat`, empty parts
kept, driven by explicit fuel so that it is structurally recursive. -/
def splitCAFuel (pat : List Char) : Nat → List Char → List Char → List (List Char)
  | 0, acc, rest => [acc.reverse ++ rest]
  | _ + 1, acc, [] => [acc.reverse]
  | fuel + 1, acc, c :: rest =>
    if pat.isPrefixOf (c :: rest) then
      acc.reverse :: splitCAFuel pat fuel [] (List.drop pat.length (c :: rest))
    else
      splitCAFuel pat fuel (c :: acc) rest

/-- Python `s.split(sep)` for a non-empty separator. -/
def pySplit (s sep : String) : List String :=
  (splitCAFuel sep.data (s.data.length + 1) [] s.data).map (fun l => (⟨l⟩ : String))

/-- Replacement worker: leftmost, non-overlapping, fuel-driven. -/
def replaceCAFuel (pat rep : List Char) : Nat → List Char → List Char
  | 0, rest => rest
  | _ + 1, [] => []
  | fuel + 1, c :: rest =>
    if pat.isPrefixOf (c :: rest) then
      rep ++ replaceCAFuel pat rep fuel (List.drop pat.length (c :: rest))
    else
      c :: replaceCAFuel pat rep fuel rest

/-- Python `s.replace(pat, rep)` for a non-empty pattern. -/
def pyReplace (s pat rep : String) : String :=
  ⟨replaceCAFuel pat.data rep.data (s.data.length + 1) s.data⟩

/-- Value of a digit list (already checked to be all digits). -/
def digitsToNat (l : List Char) : Nat :=
  l.foldl (fun a c => a * 10 + (c.toNat - 48)) 0

/-- Non-empty and all decimal digits. -/
def allDigits1 (l : List Char) : Bool :=
  !l.isEmpty && l.all Char.isDigit

/-- Python `int(s)`: optional sign, decimal digits, surrounding whitespace. -/
def pyIntParse (s : String) : Option Int :=
  let t := (pyStrip s).data
  let sd : Bool × List Char :=
    match t with
    | '-' :: rest => (true, rest)
    | '+' :: rest => (false, rest)
    | rest => (false, rest)
  if allDigits1 sd.2 then
    let n : Nat := digitsToNat sd.2
    some (if sd.1 then -(n : Int) else (n : Int))
  else none

/-- Python dict subscript `d[k]`: `KeyError` when absent. -/
def pyDictGet (d : List (String × String)) (k : String) : Except String String :=
  match d.find? (fun kv => kv.1 = k) with
  | some kv => .ok kv.2
  | none => .error ("KeyError: " ++ k)

/-- Python `k in d` for a dict. -/
def pyDictHasKey (d : List (String × String)) (k : String) : Bool :=
  (d.find? (fun kv => kv.1 = k)).isSome

/-- Gregorian leap year (as `datetime` validates dates). -/
def isLeapYear (y : Nat) : Bool :=
  (y % 4 = 0 && y % 100 ≠ 0) || (y % 400 = 0)

/-- Days in a month. -/
def daysInMonth (y m : Nat) : Nat :=
  if m = 2 then (if isLeapYear y then 29 else 28)
  else if m = 4 || m = 6 || m = 9 || m = 11 then 30
  else 31

/-- Model of `datetime.datetime.strptime(val, "%Y-%m-%d")` succeeding. -/
def parseDateYMD (s : String) : Bool :=
  match pySplit s "-" with
  | [ys, ms, ds] =>
    allDigits1 ys.data && allDigits1 ms.data && allDigits1 ds.data &&
    (let m := digitsToNat ms.data
     let d := digitsToNat ds.data
     decide (1 ≤ m) && decide (m ≤ 12) && decide (1 ≤ d) &&
     decide (d ≤ daysInMonth (digitsToNat ys.data) m))
  | _ => false

/-- `check_is_string` (mapping.py lines 107-124).  The `isinstance` branch
cannot fire in a typed embedding; the other checks append their message to
`collected_messages` and report failure. -/
def check_is_string (val name : String) (mandatory : Bool) (maxLen : Option Nat)
    (collected_messages : List String) : Bool × List String :=
  if val.length = 0 && mandatory then
    (false, collected_messages ++
      ["Must have non-zero length: \"" ++ name ++ "\" (\"" ++ val ++ "\", length " ++
        toString val.length ++ ")"])
  else
    match maxLen with
    | some m =>
      if val.length > m then
        (false, collected_messages ++
          ["Length must be max " ++ toString m ++ " (is " ++ toString val.length ++
            "): \"" ++ name ++ "\" (\"" ++ val ++ "\")!"])
      else (true, collected_messages)
    | none => (true, collected_messages)

/-- `check_is_url` (mapping.py lines 144-164). -/
def check_is_url (val name : String) (mandatory : Bool)
    (collected_messages : List String) : Bool × List String :=
  if val.length = 0 then
    if mandatory then
      (false, collected_messages ++
        ["Must be a URL and non-zero length: \"" ++ name ++ "\" (\"" ++ val ++
          "\", length 0)"])
    else (true, collected_messages)
  else if !(pyStartsWith val "http") then
    (false, collected_messages ++ ["Must be a URL: \"" ++ name ++ "\" (\"" ++ val ++ "\")"])
  else (true, collected_messages)

/-- `check_is_email` (mapping.py lines 88-105).  Note that an empty optional
value still fails the `'@' in val` check, as in the source. -/
def check_is_email (val name : String) (mandatory : Bool)
    (collected_messages : List String) : Bool × List String :=
  if val.length = 0 && mandatory then
    (false, collected_messages ++
      ["Must be an email and non-zero length: \"" ++ name ++ "\" (\"" ++ val ++
        "\", length " ++ toString val.length ++ ")"])
  else if !(val.data.contains '@') then
    (false, collected_messages ++
      ["Email address must contain \"@\": \"" ++ name ++ "\" (\"" ++ val ++ "\")"])
  else (true, collected_messages)

/-- `check_is_date` (mapping.py lines 58-86), pattern `%Y-%m-%d`. -/
def check_is_date (val name : String) (mandatory : Bool)
    (collected_messages : List String) : Bool × List String :=
  if val.length = 0 && mandatory then
    (false, collected_messages ++
      ["Must be a date and non-zero length: \"" ++ name ++ "\" (\"" ++ val ++
        "\", length " ++ toString val.length ++ ")"])
  else if val.length = 0 then (true, collected_messages)
  else if !(parseDateYMD val) then
    (false, collected_messages ++
      ["Malformed date: \"" ++ name ++ "\" (\"" ++ val ++
        "\"), desired format: \"%Y-%m-%d\""])
  else (true, collected_messages)

/-- `check_is_in_cv` (mapping.py lines 126-142).  This validator does not touch
`collected_messages`: its messages go to the logger only, so they are returned
on the separate log channel. -/
def check_is_in_cv (val name : String) (mandatory : Bool) (cv : List String)
    (cvName : String) : Bool × List String :=
  if val.length = 0 && mandatory then
    (false, ["Must have non-zero length: \"" ++ name ++ "\" (\"" ++ val ++
      "\", length " ++ toString val.length ++ ")"])
  else if !(cv.contains val) then
    (false, ["Must be in the controlled vocabulary: \"" ++ name ++ "\" (\"" ++ val ++
      "\"), must be in " ++ cvName])
  else (true, [])

/-- Fallthrough part of `get_name_from_val` (mapping.py lines 182-210): the
space-separated heuristics.  Returns ((firstName, lastName), collected
messages, log-only warnings). -/
def name_split_rest (val name : String) (collected_messages : List String) :
    (String × String) × List String × List String :=
  let logs := if val.length > 0 then ["Name not comma-separated: \"" ++ val ++ "\""] else []
  match pySplit (pyStrip val) " " with
  | [firstName, lastName] => ((firstName, lastName), collected_messages, logs)
  | [a, b, c] =>
    ((a ++ " " ++ b, c),
     collected_messages ++
       ["Malformed name, three names: Assuming that two are first names and one is last name: \"" ++
         name ++ "\" (\"" ++ val ++ "\")"], logs)
  | [_] =>
    if val.length = 0 then (("", ""), collected_messages, logs)
    else
      (("", val),
       collected_messages ++
         ["Malformed name, EOSC expects one first name and one last name: \"" ++ name ++
           "\" (\"" ++ val ++ "\")"], logs)
  | _ =>
    (("", val),
     collected_messages ++
       ["Malformed name, EOSC expects one first name and one last name: \"" ++ name ++
         "\" (\"" ++ val ++ "\")"], logs)

/-- `get_name_from_val` (mapping.py lines 166-210).  Returns the
(firstName, lastName) pair, the updated `collected_messages`, and the warnings
the source only logs. -/
def get_name_from_val (val name : String) (collected_messages : List String) :
    (String × String) × List String × List String :=
  if pyContains val ", " then
    match pySplit (pyStrip val) ", " with
    | [lastName, firstName] => ((firstName, lastName), collected_messages, [])
    | _ => name_split_rest val name collected_messages
  else name_split_rest val name collected_messages

/-- The `BasicInformation:Resource Organisation` branch (mapping.py lines
474-513).  Returns the resulting value, the messages appended to
`collected_messages`, and the messages the source only logs at debug level. -/
def resource_organisation_case (rawVal : String) : String × List String × List String :=
  let v := pyStrip rawVal
  if v = "blue-cloud" then
    (v, [], ["resourceOrganisation: Is already \"blue-cloud\", great!"])
  else if v = "Blue-Cloud" then
    ("blue-cloud", [],
     ["resourceOrganisation: Corrected field content: \"" ++ v ++ "\" -> \"blue-cloud\"!"])
  else if v.length = 0 then
    (v, ["resourceOrganisation is an empty string."], [])
  else
    ("blue-cloud",
     ["REPORTED TODO: resourceOrganisation: Replaced content \"" ++ v ++
        "\" with \"blue-cloud\"! https://support.d4science.org/issues/23182",
      "REPORTED TODO: Should I move the original value to resourceProviders? -> https://support.d4science.org/issues/23182"],
     [])

/-- The availability-value parsing shared by `Geographical Availability` and
`Language Availability` (mapping.py lines 751-753 and 767-769): strip, split
on `" ("`, tuple-unpack into exactly two parts (any other number of parts
raises `ValueError` in Python), strip trailing `')'` from the second part. -/
def parse_avail (rawVal : String) : Except String (String × String) :=
  let tmp := pyStrip rawVal
  match pySplit tmp " (" with
  | [a, b] => .ok (a, pyRstripParen b)
  | _ => .error "ValueError: not enough values to unpack"

/-- Log messages the domain matcher emits on a parent/child mismatch
(mapping.py lines 1268-1269). -/
def domain_mismatch_msgs (p c : String) : List String :=
  ["REPORTED PROBLEM: Did not find domain \"" ++ p ++ "\" in metadata (to match subdomain \"" ++
     c ++ "\". https://support.d4science.org/issues/23155",
   "REPORTED HACK: Assigning subdom \"" ++ c ++ "\" with dom \"" ++ p ++
     "\" because they are the only domains. This will fail validation."]

/-- Log message for a domain that never matched any subdomain (line 1280). -/
def domain_unused_msg (p : String) : String :=
  "(not occurring? not reported) This domain was present but without a subdomain! Every domain needs a subdomain: " ++ p

/-- Log messages the category matcher emits on a mismatch (lines 1310-1311). -/
def category_mismatch_msgs (p c : String) : List String :=
  ["Did not find category \"" ++ p ++ "\" in metadata (to match subcategory \"" ++ c ++ "\".",
   "Assigning subcat \"" ++ c ++ "\" with cat \"" ++ p ++
     "\" because they are the only categories. This will fail validation."]

/-- Log message for a category without any subcategory (line 1321). -/
def category_unused_msg (p : String) : String :=
  "This category was present but without a subcategory! Every category needs a subcategory: " ++ p

/-- Child loop of the composite matcher (mapping.py lines 1257-1276 for
domains, 1299-1317 for categories).  For each child id, look up the parent id;
emit the pair when the parent occurs in the parent list, otherwise log the
mismatch and, when `forced` is set (exactly one parent and one child in the
whole input), emit the forced pair.  Returns (pairs, used parent ids, logged
messages); a missing child in the parent map is a `KeyError`. -/
def match_children (pmap : List (String × String)) (parents : List String)
    (forced : Option (String × String)) (mkMismatch : String → String → List String) :
    List String → Except String (List (String × String) × List String × List String)
  | [] => .ok ([], [], [])
  | c :: rest =>
    match pyDictGet pmap c with
    | .error e => .error e
    | .ok p =>
      match match_children pmap parents forced mkMismatch rest with
      | .error e => .error e
      | .ok (pairs, used, logs) =>
        if parents.contains p then
          .ok ((p, c) :: pairs, p :: used, logs)
        else
          match forced with
          | some pr => .ok (pr :: pairs, used, mkMismatch p c ++ logs)
          | none => .ok (pairs, used, mkMismatch p c ++ logs)

/-- Composite matcher (mapping.py lines 1253-1283 / 1295-1324): the fallback
pair is forced only when the whole input has exactly one parent id and exactly
one child id; afterwards every parent never marked used is logged. -/
def match_composites (pmap : List (String × String)) (parents children : List String)
    (mkMismatch : String → String → List String) (mkUnused : String → String) :
    Except String (List (String × String) × List String) :=
  let forced : Option (String × String) :=
    if parents.length = 1 && children.length = 1 then
      some (parents.headD "", children.headD "")
    else none
  match match_children pmap parents forced mkMismatch children with
  | .error e => .error e
  | .ok (pairs, used, logs) =>
    .ok (pairs, logs ++ (parents.filter (fun p => !used.contains p)).map mkUnused)

/-- Keep-predicate of the tag filter (mapping.py lines 1335-1343): a tag is
removed when it equals a collected target-user name, starts with
"Access Mode" or "Access Type", or equals a category or domain name. -/
def tag_keep (targetUsersNames category_names domain_names : List String)
    (item : String) : Bool :=
  if targetUsersNames.contains item then false
  else if pyStartsWith item "Access Mode" || pyStartsWith item "Access Type" then false
  else if category_names.contains item || domain_names.contains item then false
  else true

/-- Tag filter (mapping.py lines 1333-1347), including the final
`if not len(tags) == len(new_tags)` reassignment. -/
def filter_tags (tags targetUsersNames category_names domain_names : List String) :
    List String :=
  let new_tags := tags.filter (tag_keep targetUsersNames category_names domain_names)
  if !(tags.length = new_tags.length) then new_tags else tags

/-- The fixed suffix appended to over-long descriptions (mapping.py line 354). -/
def DESC_ADD : String := " ... (For more details, please visit the service webpage!)"

/-- Description shortening (mapping.py lines 350-358): descriptions longer than
1000 characters are cut to `1000 - len(DESC_ADD)` characters and the fixed
suffix is appended. -/
def shorten_description (d : String) : String :=
  if d.length > 1000 then ⟨d.data.take (1000 - DESC_ADD.length) ++ DESC_ADD.data⟩ else d

/-!
Controlled vocabularies and static tables, transcribed verbatim from the
Python dict/list literals in mapping.py (lines 32-42 and 229-312).  Python
dicts become ordered association lists; lookup takes the first matching key
(keys are unique).
-/

def ABBREVIATIONS : List (String × String) := [
  ("oceanregimes_notebooks", "oceanregimes"),
  ("oceanpatterns", "oceanpatterns"),
  ("mei_generator", "mei_generator"),
  ("carbon_data_notebooks", "carbon_notebooks"),
  ("storm_severity_index_ssi_notebook_", "storm_ssi"),
  ("marine_environmental_indicators_vlab", "mei_vlab"),
  ("modelling_phyto_zoo_plankton_interactions", "plankton_interact"),
  ("zooplankton_eovs", "zooplankton_eovs"),
  ("zoo-_and_phytoplankton_essential_ocean_variable_products_vlab", "plankton_eov_vlab")]

def ORDER_TYPES : List (String × String) := [
  ("fully open access", "order_type-fully_open_access"),
  ("open access", "order_type-open_access"),
  ("order required", "order_type-order_required"),
  ("other", "order_type-other")]

def FUNDING_BODIES : List (String × String) := [
  ("agency for environment and energy management (ademe)", "funding_body-ademe"),
  ("arts and humanities research council (ahrc)", "funding_body-ahrc"),
  ("academy of finland (aka)", "funding_body-aka"),
  ("national authority for scientific research (ancs)", "funding_body-ancs"),
  ("french national research agency (anr)", "funding_body-anr"),
  ("research and development agency (apvv)", "funding_body-apvv"),
  ("australian research council (arc)", "funding_body-arc"),
  ("slovenian research agency (arrs)", "funding_body-arrs"),
  ("alfred wegener institute for polar and marine research (awi)", "funding_body-awi"),
  ("biotechnology and biological sciences research council (bbsrc)", "funding_body-bbsrc"),
  ("belmont forum (bf)", "funding_body-bf"),
  ("federal ministry of education and research (bmbf)", "funding_body-bmbf"),
  ("la caixa foundation (caixa)", "funding_body-caixa"),
  ("center for industrial technological development (cdti)", "funding_body-cdti"),
  ("alternative energies and atomic energy commission (cea)", "funding_body-cea"),
  ("canadian institutes of health research (cihr)", "funding_body-cihr"),
  ("national university research council (cncsis) - romania", "funding_body-cncsis"),
  ("national centre for space studies (cnes)", "funding_body-cnes"),
  ("national council for scientific and technological development (cnpq)", "funding_body-cnpq"),
  ("national research council (cnr)", "funding_body-cnr"),
  ("national centre for scientific research (cnrs)", "funding_body-cnrs"),
  ("croatian science foundation (csf)", "funding_body-csf"),
  ("spanish national research council (csic)", "funding_body-csic"),
  ("danish agency for science and higher education (dashe)", "funding_body-dashe"),
  ("danish agency for science, technology and innovation (dasti)", "funding_body-dasti"),
  ("the danish council for independent research (ddf)", "funding_body-ddf"),
  ("danish council for independent research (dff)", "funding_body-dff"),
  ("german research foundation (dfg)", "funding_body-dfg"),
  ("general operational directorate for economy, employment and research (dgo6)", "funding_body-dgo6"),
  ("german aerospace center (dlr)", "funding_body-dlr"),
  ("danish national research foundation (dnrf)", "funding_body-dnrf"),
  ("federal department of economic affairs, education and research (eaer)", "funding_body-eaer"),
  ("european comission (ec)", "funding_body-ec"),
  ("engineering and physical sciences research council (epsrc)", "funding_body-epsrc"),
  ("european space agency (esa)", "funding_body-esa"),
  ("economic and social research council (esrc)", "funding_body-esrc"),
  ("estonian research council (etag)", "funding_body-etag"),
  ("são paulo research foundation (fapesp)", "funding_body-fapesp"),
  ("foundation for science and technology (fct)", "funding_body-fct"),
  ("austrian research promotion agency (ffg)", "funding_body-ffg"),
  ("foundation for polish science (fnp)", "funding_body-fnp"),
  ("national research fund (fnr)", "funding_body-fnr"),
  ("fonds national de la recherche scientifique (fnrs)", "funding_body-fnrs"),
  ("foundation for fundamental research on matter (fom)", "funding_body-fom"),
  ("swedish research council for health, working life and welfare (forte)", "funding_body-forte"),
  ("fritz thyssen foundation (fts)", "funding_body-fts"),
  ("austrian science fund (fwf)", "funding_body-fwf"),
  ("research foundation flanders (fwo)", "funding_body-fwo"),
  ("czech science foundation (gacr)", "funding_body-gacr"),
  ("general secretariat for research and technology (gsrt)", "funding_body-gsrt"),
  ("innovation fund denmark (ifd)", "funding_body-ifd"),
  ("french research institute for exploitation of the sea (ifremer)", "funding_body-ifremer"),
  ("innovation fund of the ministry of economy of the slovak republic (imsr)", "funding_body-imsr"),
  ("brussels institute for research and innovation (innoviris)", "funding_body-innoviris"),
  ("national institute of agricultural research (inra)", "funding_body-inra"),
  ("national institute of health and medical research (inserm)", "funding_body-inserm"),
  ("french polar institute (ipev)", "funding_body-ipev"),
  ("irish research council (irc)", "funding_body-irc"),
  ("international science council (isc)", "funding_body-isc"),
  ("carlos iii health institute (isciii)", "funding_body-isciii"),
  ("israel science foundation (isf)", "funding_body-isf"),
  ("agency for innovation by science and technology (iwt)", "funding_body-iwt"),
  ("japanese society for the promotion of science (jsps)", "funding_body-jsps"),
  ("japanese science and technology agency (jst)", "funding_body-jst"),
  ("knut and alice wallenberg foundation (kaws)", "funding_body-kaws"),
  ("knowledge foundation (kks)", "funding_body-kks"),
  ("research council of lithuania (lmt)", "funding_body-lmt"),
  ("malta council for science and technology (mcst)", "funding_body-mcst"),
  ("ministry for education and scientific research (mecr)", "funding_body-mecr"),
  ("ministry of higher education and research (mesr)", "funding_body-mesr"),
  ("ministry of education, science and technological development of republic of serbia (mestd)", "funding_body-mestd"),
  ("ministry for economic development and technology (mgrt)", "funding_body-mgrt"),
  ("ministry for economy and competitveness (mineco)", "funding_body-mineco"),
  ("swedish foundation for strategic environmental research (mistra)", "funding_body-mistra"),
  ("agency for science, innovation and technology (mita)", "funding_body-mita"),
  ("ministry for education, university and research (miur)", "funding_body-miur"),
  ("ministry of science and technology of the people\x27s republic of china (most)", "funding_body-most"),
  ("max planck society for the advancement of science (mpg)", "funding_body-mpg"),
  ("medical research council (mrc)", "funding_body-mrc"),
  ("ministry of science and education republic of croatia (mse)", "funding_body-mse"),
  ("the ministry of education, science, research and sports of the slovak republic (msvvas sr)", "funding_body-msvvas_sr"),
  ("national aeronautics and space administration (nasa)", "funding_body-nasa"),
  ("national centre for research and development (ncbir)", "funding_body-ncbir"),
  ("national science center (ncn)", "funding_body-ncn"),
  ("natural environment research council (nerc)", "funding_body-nerc"),
  ("national health and medical research council (nhmrc)", "funding_body-nhmrc"),
  ("national institutes of health (nig)", "funding_body-nig"),
  ("national research, development and innovation fund (nkfia)", "funding_body-nkfia"),
  ("national research foundation (nrf)", "funding_body-nrf"),
  ("natural sciences and engineering research council of canada (nserc)", "funding_body-nserc"),
  ("national science foundation (nsf)", "funding_body-nsf"),
  ("netherlands organisation for scientific research (nwo)", "funding_body-nwo"),
  ("austrian academy of sciences (oeaw)", "funding_body-oeaw"),
  ("national foundation for research, technology and development (oenfte)", "funding_body-oenfte"),
  ("french national aerospace research center (onera)", "funding_body-onera"),
  ("other", "funding_body-other"),
  ("icelandic centre for research (rannis)", "funding_body-rannis"),
  ("research council of norway (rcn)", "funding_body-rcn"),
  ("research council uk (rcuk)", "funding_body-rcuk"),
  ("the swedish foundation for humanities and social sciences (rj)", "funding_body-rj"),
  ("research promotion foundation (rpf)", "funding_body-rpf"),
  ("swedish energy agency (sea)", "funding_body-sea"),
  ("swedish environmental protection agency (sepa)", "funding_body-sepa"),
  ("science foundation ireland (sfi)", "funding_body-sfi"),
  ("secretariat-general for investment (sgpi)", "funding_body-sgpi"),
  ("swiss national science foundation (snf)", "funding_body-snf"),
  ("swedish national space board (snsb)", "funding_body-snsb"),
  ("swedish reseach council formas (srcf)", "funding_body-srcf"),
  ("swedish radiation safety authority (srsa)", "funding_body-srsa"),
  ("swedish foundation for strategic research (ssf)", "funding_body-ssf"),
  ("social sciences and humanities research council (sshrc)", "funding_body-sshrc"),
  ("science and technology facilities council (stfc)", "funding_body-stfc"),
  ("technology foundation (stw)", "funding_body-stw"),
  ("technology agency of the czech republic (tacr)", "funding_body-tacr"),
  ("tara expeditions foundation (tara)", "funding_body-tara"),
  ("finnish funding agency for technology and innovation (tekes)", "funding_body-tekes"),
  ("scientific and technological research council of turkey (tubitak)", "funding_body-tubitak"),
  ("executive agency for higher education, research, development and innovation funding (uefiscdi - cncs)", "funding_body-uefiscdi_cncs"),
  ("uk research and innovation (ukri)", "funding_body-ukri"),
  ("scientific grant agency (vega)", "funding_body-vega"),
  ("state education development agency (viaa)", "funding_body-viaa"),
  ("swedish governmental agency for innovation systems (vinnova)", "funding_body-vinnova"),
  ("flanders innovation & entrepeneurship (vlaio)", "funding_body-vlaio"),
  ("swedish research council (vr)", "funding_body-vr"),
  ("volkswagen foundation (vs)", "funding_body-vs"),
  ("wellcome trust (wt)", "funding_body-wt"),
  ("vienna science and technology fund (wwtf)", "funding_body-wwtf")]

def FUNDING_PROGRAMS : List (String × String) := [
  ("anti fraud information system (afis2020)", "funding_program-afis2020"),
  ("european agricultural guarantee fund (after transfers between eagf and eafrd) (agr)", "funding_program-agr"),
  ("net transfer between eagf and eafrd (agrnet)", "funding_program-agrnet"),
  ("asylum, migration and integration fund (amf)", "funding_program-amf"),
  ("rights, equality and citizenship programme (cdf2020)", "funding_program-cdf2020"),
  ("connecting europe facility (cef)", "funding_program-cef"),
  ("cohesion fund (cf)", "funding_program-cf"),
  ("contribution from the cohesion fund to the cef programme (cf_det)", "funding_program-cf_det"),
  ("common foreign and security policy (cfsp2020)", "funding_program-cfsp"),
  ("europe for citizens (cit2020)", "funding_program-cit2020"),
  ("competitiveness (more developed regions) (compreg)", "funding_program-compreg"),
  ("consumer programme (cons)", "funding_program-cons"),
  ("european earth observation programme (copernicus)", "funding_program-copernicus"),
  ("programme for the competitiveness of enterprises and small and medium-sized enterprises (cosme)", "funding_program-cosme"),
  ("union civil protection mechanism — member states (cpm_h3)", "funding_program-cpm_h3"),
  ("union civil protection mechanism — outside eu (cpm_h4)", "funding_program-cpm_h4"),
  ("creative europe programme (crea)", "funding_program-crea"),
  ("action programme for customs in the european union (cust 2020)", "funding_program-cust2020"),
  ("development cooperation instrument (dci2020)", "funding_program-dci2020"),
  ("the union programme for education, training, youth and sport (erasmus+) (e4a)", "funding_program-e4a"),
  ("european agricultural fund for rural development (after transfers between eagf and eafrd) (eafrd)", "funding_program-eafrd"),
  ("european agricultural fund for rural development (eafrd2020)", "funding_program-eafrd2020"),
  ("european agricultural guarantee fund (eagf2020)", "funding_program-eagf2020"),
  ("emergency aid reserve (ear2020)", "funding_program-ear2020"),
  ("energy projects to aid economic recovery (eerp)", "funding_program-eerp"),
  ("european fund for sustainable development (efsd)", "funding_program-efsd"),
  ("european fund for strategic investments (efsi)", "funding_program-efsi"),
  ("european globalisation adjustment fund (egf2020)", "funding_program-egf2020"),
  ("european instrument for democracy and human rights (eidhr2020)", "funding_program-eidhr2020"),
  ("european maritime and fisheries fund (emff2020)", "funding_program-emff2020"),
  ("european neighbourhood instrument (eni)", "funding_program-eni"),
  ("european regional development fund (erdf)", "funding_program-erdf"),
  ("european solidarity corps (esc)", "funding_program-esc"),
  ("european social fund (esf)", "funding_program-esf"),
  ("european statistical programme (esp2017)", "funding_program-esp2017"),
  ("european statistical programme (esp2020)", "funding_program-esp2020"),
  ("eu aid volunteers initiative (euav)", "funding_program-euav"),
  ("euratom research and training programme (euratom)", "funding_program-euratom"),
  ("comparison of fingerprints for the effective application of the dublin convention (eurodac2020)", "funding_program-eurodac2020"),
  ("european union solidarity fund (eusf2020)", "funding_program-eusf2020"),
  ("european union solidarity fund (eusf) — member states (eusf_h3)", "funding_program-eusf_h3"),
  ("european union solidarity fund (eusf) — countries negotiating for accession (eusf_h4)", "funding_program-eusf_h4"),
  ("fund for european aid to the most deprived (fead)", "funding_program-fead"),
  ("food and feed (ff2020)", "funding_program-ff2020"),
  ("specific activities in the field of financial reporting and auditing (finser2020)", "funding_program-finser2020"),
  ("action programme for taxation in the european union (fisc2020)", "funding_program-fisc2020"),
  ("implementation and exploitation of european satellite navigation systems (egnos and galileo) (gal2014)", "funding_program-gal2014"),
  ("eu cooperation with greenland (grld2020)", "funding_program-grld2020"),
  ("the framework programme for research and innovation (h2020)", "funding_program-h2020"),
  ("union\x27s action in the field of health (health programme) (health)", "funding_program-health"),
  ("programme to promote activities in the field of the protection of the european union\x27s financial interests (herc3)", "funding_program-herc3"),
  ("supplementary high flux reactor (hfr) programmes (hfr2015)", "funding_program-hfr2015"),
  ("humanitarian aid (huma2020)", "funding_program-huma2020"),
  ("enhancing consumers involvement in eu policy making in the field of financial services (icfs)", "funding_program-icfs"),
  ("instrument for emergency support within the union (ies)", "funding_program-ies"),
  ("instrument contributing to stability and peace (ifs2020)", "funding_program-ifs2020"),
  ("instrument for nuclear safety cooperation (insc2020)", "funding_program-insc2020"),
  ("instrument for pre-accession assistance (ipa2)", "funding_program-ipa2"),
  ("interoperability solutions for european public administrations (isa2015)", "funding_program-isa2015"),
  ("interoperability solutions for european public administrations, businesses and citizens (isa2020)", "funding_program-isa2020"),
  ("internal security fund (isf)", "funding_program-isf"),
  ("international thermonuclear experimental reactor (iter)", "funding_program-iter"),
  ("justice programme (just)", "funding_program-just"),
  ("programme for the environment and climate action (life2020)", "funding_program-life2020"),
  ("guarantee fund for external actions (loan2020)", "funding_program-loan2020"),
  ("macro financial assistance (mfa)", "funding_program-mfa"),
  ("nuclear decommissioning assistance programmes in bulgaria, lithuania and slovakia (nd)", "funding_program-nd"),
  ("other", "funding_program-other"),
  ("outermost and sparsely populated regions (outreg)", "funding_program-outreg"),
  ("exchange, assistance and training programme for the protection of the euro against counterfeiting (peri2020)", "funding_program-peri2020"),
  ("partnership instrument for cooperation with third countries (pi)", "funding_program-pi"),
  ("european union programme for employment and social innovation (psci)", "funding_program-psci"),
  ("regional convergence (regconv)", "funding_program-regconv"),
  ("compulsory contributions to regional fisheries management organisations (rfmos) and to other international organisations", "funding_program-rfmos"),
  ("sustainable fisheries partnership agreements (sfpas)", "funding_program-sfpas"),
  ("schengen information system (sis2020)", "funding_program-sis2020"),
  ("technical assistance and innovative actions (ta_ia)", "funding_program-ta_ia"),
  ("instrument of financial support for encouraging the economic development of the turkish cypriot community (tcc)", "funding_program-tcc"),
  ("european territorial cooperation (terrcoop)", "funding_program-terrcoop"),
  ("transition regions (transreg)", "funding_program-transreg"),
  ("visa information system (vis2020)", "funding_program-vis2020"),
  ("youth employment initiative (specific top-up allocation) (yei))", "funding_program-yei")]

def CV_DOM : List (String × String) := [
  ("agricultural sciences", "scientific_domain-agricultural_sciences"),
  ("engineering & technology", "scientific_domain-engineering_and_technology"),
  ("generic", "scientific_domain-generic"),
  ("humanities", "scientific_domain-humanities"),
  ("medical & health sciences", "scientific_domain-medical_and_health_sciences"),
  ("natural sciences", "scientific_domain-natural_sciences"),
  ("other", "scientific_domain-other"),
  ("social sciences", "scientific_domain-social_sciences")]

def CV_SUBDOM : List (String × String) := [
  ("agricultural sciences.agricultural biotechnology", "scientific_subdomain-agricultural_sciences-agricultural_biotechnology"),
  ("agricultural sciences.agriculture, forestry & fisheries", "scientific_subdomain-agricultural_sciences-agriculture_forestry_and_fisheries"),
  ("agricultural sciences.animal & dairy sciences", "scientific_subdomain-agricultural_sciences-animal_and_dairy_sciences"),
  ("agricultural sciences.other agricultural sciences", "scientific_subdomain-agricultural_sciences-other_agricultural_sciences"),
  ("agricultural sciences.veterinary sciences", "scientific_subdomain-agricultural_sciences-veterinary_sciences"),
  ("engineering & technology.chemical engineering", "scientific_subdomain-engineering_and_technology-chemical_engineering"),
  ("engineering & technology.civil engineering", "scientific_subdomain-engineering_and_technology-civil_engineering"),
  ("engineering & technology.electrical, electronic & information engineering", "scientific_subdomain-engineering_and_technology-electrical_electronic_and_information_engineering"),
  ("engineering & technology.environmental biotechnology", "scientific_subdomain-engineering_and_technology-environmental_biotechnology"),
  ("engineering & technology.environmental engineering", "scientific_subdomain-engineering_and_technology-environmental_engineering"),
  ("engineering & technology.industrial biotechnology", "scientific_subdomain-engineering_and_technology-industrial_biotechnology"),
  ("engineering & technology.materials engineering", "scientific_subdomain-engineering_and_technology-materials_engineering"),
  ("engineering & technology.mechanical engineering", "scientific_subdomain-engineering_and_technology-mechanical_engineering"),
  ("engineering & technology.medical engineering", "scientific_subdomain-engineering_and_technology-medical_engineering"),
  ("engineering & technology.nanotechnology", "scientific_subdomain-engineering_and_technology-nanotechnology"),
  ("engineering & technology.other engineering & technology sciences", "scientific_subdomain-engineering_and_technology-other_engineering_and_technology_sciences"),
  ("generic.generic", "scientific_subdomain-generic-generic"),
  ("humanities.arts", "scientific_subdomain-humanities-arts"),
  ("humanities.history & archaeology", "scientific_subdomain-humanities-history_and_archaeology"),
  ("humanities.languages & literature", "scientific_subdomain-humanities-languages_and_literature"),
  ("humanities.other humanities", "scientific_subdomain-humanities-other_humanities"),
  ("humanities.philosophy, ethics & religion", "scientific_subdomain-humanities-philosophy_ethics_and_religion"),
  ("medical & health sciences.basic medicine", "scientific_subdomain-medical_and_health_sciences-basic_medicine"),
  ("medical & health sciences.clinical medicine", "scientific_subdomain-medical_and_health_sciences-clinical_medicine"),
  ("medical & health sciences.health sciences", "scientific_subdomain-medical_and_health_sciences-health_sciences"),
  ("medical & health sciences.medical biotechnology", "scientific_subdomain-medical_and_health_sciences-medical_biotechnology"),
  ("medical & health sciences.other medical sciences", "scientific_subdomain-medical_and_health_sciences-other_medical_sciences"),
  ("natural sciences.biological sciences", "scientific_subdomain-natural_sciences-biological_sciences"),
  ("natural sciences.chemical sciences", "scientific_subdomain-natural_sciences-chemical_sciences"),
  ("natural sciences.computer & information sciences", "scientific_subdomain-natural_sciences-computer_and_information_sciences"),
  ("natural sciences.earth & related environmental sciences", "scientific_subdomain-natural_sciences-earth_and_related_environmental_sciences"),
  ("natural sciences.mathematics", "scientific_subdomain-natural_sciences-mathematics"),
  ("natural sciences.other natural sciences", "scientific_subdomain-natural_sciences-other_natural_sciences"),
  ("natural sciences.physical sciences", "scientific_subdomain-natural_sciences-physical_sciences"),
  ("other.other", "scientific_subdomain-other-other"),
  ("social sciences.economics & business", "scientific_subdomain-social_sciences-economics_and_business"),
  ("social sciences.educational sciences", "scientific_subdomain-social_sciences-educational_sciences"),
  ("social sciences.law", "scientific_subdomain-social_sciences-law"),
  ("social sciences.media & communications", "scientific_subdomain-social_sciences-media_and_communications"),
  ("social sciences.other social sciences", "scientific_subdomain-social_sciences-other_social_sciences"),
  ("social sciences.political sciences", "scientific_subdomain-social_sciences-political_sciences"),
  ("social sciences.psychology", "scientific_subdomain-social_sciences-psychology"),
  ("social sciences.social & economic geography", "scientific_subdomain-social_sciences-social_and_economic_geography"),
  ("social sciences.sociology", "scientific_subdomain-social_sciences-sociology")]

def CV_DOM_MAPPING : List (String × String) := [
  ("scientific_subdomain-agricultural_sciences-agricultural_biotechnology", "scientific_domain-agricultural_sciences"),
  ("scientific_subdomain-agricultural_sciences-agriculture_forestry_and_fisheries", "scientific_domain-agricultural_sciences"),
  ("scientific_subdomain-agricultural_sciences-animal_and_dairy_sciences", "scientific_domain-agricultural_sciences"),
  ("scientific_subdomain-agricultural_sciences-other_agricultural_sciences", "scientific_domain-agricultural_sciences"),
  ("scientific_subdomain-agricultural_sciences-veterinary_sciences", "scientific_domain-agricultural_sciences"),
  ("scientific_subdomain-engineering_and_technology-chemical_engineering", "scientific_domain-engineering_and_technology"),
  ("scientific_subdomain-engineering_and_technology-civil_engineering", "scientific_domain-engineering_and_technology"),
  ("scientific_subdomain-engineering_and_technology-electrical_electronic_and_information_engineering", "scientific_domain-engineering_and_technology"),
  ("scientific_subdomain-engineering_and_technology-environmental_biotechnology", "scientific_domain-engineering_and_technology"),
  ("scientific_subdomain-engineering_and_technology-environmental_engineering", "scientific_domain-engineering_and_technology"),
  ("scientific_subdomain-engineering_and_technology-industrial_biotechnology", "scientific_domain-engineering_and_technology"),
  ("scientific_subdomain-engineering_and_technology-materials_engineering", "scientific_domain-engineering_and_technology"),
  ("scientific_subdomain-engineering_and_technology-mechanical_engineering", "scientific_domain-engineering_and_technology"),
  ("scientific_subdomain-engineering_and_technology-medical_engineering", "scientific_domain-engineering_and_technology"),
  ("scientific_subdomain-engineering_and_technology-nanotechnology", "scientific_domain-engineering_and_technology"),
  ("scientific_subdomain-engineering_and_technology-other_engineering_and_technology_sciences", "scientific_domain-engineering_and_technology"),
  ("scientific_subdomain-generic-generic", "scientific_domain-generic"),
  ("scientific_subdomain-humanities-arts", "scientific_domain-humanities"),
  ("scientific_subdomain-humanities-history_and_archaeology", "scientific_domain-humanities"),
  ("scientific_subdomain-humanities-languages_and_literature", "scientific_domain-humanities"),
  ("scientific_subdomain-humanities-other_humanities", "scientific_domain-humanities"),
  ("scientific_subdomain-humanities-philosophy_ethics_and_religion", "scientific_domain-humanities"),
  ("scientific_subdomain-medical_and_health_sciences-basic_medicine", "scientific_domain-medical_and_health_sciences"),
  ("scientific_subdomain-medical_and_health_sciences-clinical_medicine", "scientific_domain-medical_and_health_sciences"),
  ("scientific_subdomain-medical_and_health_sciences-health_sciences", "scientific_domain-medical_and_health_sciences"),
  ("scientific_subdomain-medical_and_health_sciences-medical_biotechnology", "scientific_domain-medical_and_health_sciences"),
  ("scientific_subdomain-medical_and_health_sciences-other_medical_sciences", "scientific_domain-medical_and_health_sciences"),
  ("scientific_subdomain-natural_sciences-biological_sciences", "scientific_domain-natural_sciences"),
  ("scientific_subdomain-natural_sciences-chemical_sciences", "scientific_domain-natural_sciences"),
  ("scientific_subdomain-natural_sciences-computer_and_information_sciences", "scientific_domain-natural_sciences"),
  ("scientific_subdomain-natural_sciences-earth_and_related_environmental_sciences", "scientific_domain-natural_sciences"),
  ("scientific_subdomain-natural_sciences-mathematics", "scientific_domain-natural_sciences"),
  ("scientific_subdomain-natural_sciences-other_natural_sciences", "scientific_domain-natural_sciences"),
  ("scientific_subdomain-natural_sciences-physical_sciences", "scientific_domain-natural_sciences"),
  ("scientific_subdomain-other-other", "scientific_domain-other"),
  ("scientific_subdomain-social_sciences-economics_and_business", "scientific_domain-social_sciences"),
  ("scientific_subdomain-social_sciences-educational_sciences", "scientific_domain-social_sciences"),
  ("scientific_subdomain-social_sciences-law", "scientific_domain-social_sciences"),
  ("scientific_subdomain-social_sciences-media_and_communications", "scientific_domain-social_sciences"),
  ("scientific_subdomain-social_sciences-other_social_sciences", "scientific_domain-social_sciences"),
  ("scientific_subdomain-social_sciences-political_sciences", "scientific_domain-social_sciences"),
  ("scientific_subdomain-social_sciences-psychology", "scientific_domain-social_sciences"),
  ("scientific_subdomain-social_sciences-social_and_economic_geography", "scientific_domain-social_sciences"),
  ("scientific_subdomain-social_sciences-sociology", "scientific_domain-social_sciences")]

def CV_CAT : List (String × String) := [
  ("compute", "category-access_physical_and_eInfrastructures-compute"),
  ("data storage", "category-access_physical_and_eInfrastructures-data_storage"),
  ("instrument & equipment", "category-access_physical_and_eInfrastructures-instrument_and_equipment"),
  ("material storage", "category-access_physical_and_eInfrastructures-material_storage"),
  ("network", "category-access_physical_and_eInfrastructures-network"),
  ("aggregators & integrators", "category-aggregators_and_integrators-aggregators_and_integrators"),
  ("other", "category-other-other"),
  ("data analysis", "category-processing_and_analysis-data_analysis"),
  ("data management", "category-processing_and_analysis-data_management"),
  ("measurement & materials analysis", "category-processing_and_analysis-measurement_and_materials_analysis"),
  ("operations & infrastructure management services", "category-security_and_operations-operations_and_infrastructure_management_services"),
  ("security & identity", "category-security_and_operations-security_and_identity"),
  ("applications", "category-sharing_and_discovery-applications"),
  ("data", "category-sharing_and_discovery-data"),
  ("development resources", "category-sharing_and_discovery-development_resources"),
  ("samples", "category-sharing_and_discovery-samples"),
  ("scholarly communication", "category-sharing_and_discovery-scholarly_communication"),
  ("software", "category-sharing_and_discovery-software"),
  ("consultancy & support", "category-training_and_support-consultancy_and_support"),
  ("education & training", "category-training_and_support-education_and_training")]

def CV_SUBCAT : List (String × String) := [
  ("compute.container management", "subcategory-access_physical_and_eInfrastructures-compute-container_management"),
  ("compute.job execution", "subcategory-access_physical_and_eInfrastructures-compute-job_execution"),
  ("compute.orchestration", "subcategory-access_physical_and_eInfrastructures-compute-orchestration"),
  ("compute.other", "subcategory-access_physical_and_eInfrastructures-compute-other"),
  ("compute.serverless applications repository", "subcategory-access_physical_and_eInfrastructures-compute-serverless_applications_repository"),
  ("compute.virtual machine management", "subcategory-access_physical_and_eInfrastructures-compute-virtual_machine_management"),
  ("compute.workload management", "subcategory-access_physical_and_eInfrastructures-compute-workload_management"),
  ("data storage.archive", "subcategory-access_physical_and_eInfrastructures-data_storage-archive"),
  ("data storage.backup", "subcategory-access_physical_and_eInfrastructures-data_storage-backup"),
  ("data storage.data", "subcategory-access_physical_and_eInfrastructures-data_storage-data"),
  ("data storage.digital preservation", "subcategory-access_physical_and_eInfrastructures-data_storage-digital_preservation"),
  ("data storage.disk", "subcategory-access_physical_and_eInfrastructures-data_storage-disk"),
  ("data storage.file", "subcategory-access_physical_and_eInfrastructures-data_storage-file"),
  ("data storage.online", "subcategory-access_physical_and_eInfrastructures-data_storage-online"),
  ("data storage.other", "subcategory-access_physical_and_eInfrastructures-data_storage-other"),
  ("data storage.queue", "subcategory-access_physical_and_eInfrastructures-data_storage-queue"),
  ("data storage.recovery", "subcategory-access_physical_and_eInfrastructures-data_storage-recovery"),
  ("data storage.replicated", "subcategory-access_physical_and_eInfrastructures-data_storage-replicated"),
  ("data storage.synchronised", "subcategory-access_physical_and_eInfrastructures-data_storage-synchronised"),
  ("instrument & equipment.chromatographer", "subcategory-access_physical_and_eInfrastructures-instrument_and_equipment-chromatographer"),
  ("instrument & equipment.cytometer", "subcategory-access_physical_and_eInfrastructures-instrument_and_equipment-cytometer"),
  ("instrument & equipment.digitisation equipment", "subcategory-access_physical_and_eInfrastructures-instrument_and_equipment-digitisation_equipment"),
  ("instrument & equipment.geophysical", "subcategory-access_physical_and_eInfrastructures-instrument_and_equipment-geophysical"),
  ("instrument & equipment.laser", "subcategory-access_physical_and_eInfrastructures-instrument_and_equipment-laser"),
  ("instrument & equipment.microscopy", "subcategory-access_physical_and_eInfrastructures-instrument_and_equipment-microscopy"),
  ("instrument & equipment.monument maintenance equipment", "subcategory-access_physical_and_eInfrastructures-instrument_and_equipment-monument_maintenance_equipment"),
  ("instrument & equipment.other", "subcategory-access_physical_and_eInfrastructures-instrument_and_equipment-other"),
  ("instrument & equipment.radiation", "subcategory-access_physical_and_eInfrastructures-instrument_and_equipment-radiation"),
  ("instrument & equipment.spectrometer", "subcategory-access_physical_and_eInfrastructures-instrument_and_equipment-spectrometer"),
  ("instrument & equipment.spectrophotometer", "subcategory-access_physical_and_eInfrastructures-instrument_and_equipment-spectrophotometer"),
  ("material storage.archiving", "subcategory-access_physical_and_eInfrastructures-material_storage-archiving"),
  ("material storage.assembly", "subcategory-access_physical_and_eInfrastructures-material_storage-assembly"),
  ("material storage.disposal", "subcategory-access_physical_and_eInfrastructures-material_storage-disposal"),
  ("material storage.fulfilment", "subcategory-access_physical_and_eInfrastructures-material_storage-fulfilment"),
  ("material storage.other", "subcategory-access_physical_and_eInfrastructures-material_storage-other"),
  ("material storage.packaging", "subcategory-access_physical_and_eInfrastructures-material_storage-packaging"),
  ("material storage.preservation", "subcategory-access_physical_and_eInfrastructures-material_storage-preservation"),
  ("material storage.quality inspecting", "subcategory-access_physical_and_eInfrastructures-material_storage-quality_inspecting"),
  ("material storage.repository", "subcategory-access_physical_and_eInfrastructures-material_storage-repository"),
  ("material storage.reworking", "subcategory-access_physical_and_eInfrastructures-material_storage-reworking"),
  ("material storage.sorting", "subcategory-access_physical_and_eInfrastructures-material_storage-sorting"),
  ("material storage.warehousing", "subcategory-access_physical_and_eInfrastructures-material_storage-warehousing"),
  ("network.content delivery network", "subcategory-access_physical_and_eInfrastructures-network-content_delivery_network"),
  ("network.direct connect", "subcategory-access_physical_and_eInfrastructures-network-direct_connect"),
  ("network.exchange", "subcategory-access_physical_and_eInfrastructures-network-exchange"),
  ("network.load balancer", "subcategory-access_physical_and_eInfrastructures-network-load_balancer"),
  ("network.other", "subcategory-access_physical_and_eInfrastructures-network-other"),
  ("network.traffic manager", "subcategory-access_physical_and_eInfrastructures-network-traffic_manager"),
  ("network.virtual network", "subcategory-access_physical_and_eInfrastructures-network-virtual_nework"),
  ("network.vpn gateway", "subcategory-access_physical_and_eInfrastructures-network-vpn_gateway"),
  ("aggregators & integrators.applications", "subcategory-aggregators_and_integrators-aggregators_and_integrators-applications"),
  ("aggregators & integrators.data", "subcategory-aggregators_and_integrators-aggregators_and_integrators-data"),
  ("aggregators & integrators.other", "subcategory-aggregators_and_integrators-aggregators_and_integrators-other"),
  ("aggregators & integrators.services", "subcategory-aggregators_and_integrators-aggregators_and_integrators-services"),
  ("aggregators & integrators.software", "subcategory-aggregators_and_integrators-aggregators_and_integrators-software"),
  ("other.other", "subcategory-other-other-other"),
  ("data analysis.2d/3d digitisation", "subcategory-processing_and_analysis-data_analysis-2d_3d_digitisation"),
  ("data analysis.artificial intelligence", "subcategory-processing_and_analysis-data_analysis-artificial_intelligence"),
  ("data analysis.data exploitation", "subcategory-processing_and_analysis-data_analysis-data_exploitation"),
  ("data analysis.forecast", "subcategory-processing_and_analysis-data_analysis-forecast"),
  ("data analysis.image/data analysis", "subcategory-processing_and_analysis-data_analysis-image_data_analysis"),
  ("data analysis.machine learning", "subcategory-processing_and_analysis-data_analysis-machine_learning"),
  ("data analysis.other", "subcategory-processing_and_analysis-data_analysis-other"),
  ("data analysis.visualization", "subcategory-processing_and_analysis-data_analysis-visualization"),
  ("data analysis.workflows", "subcategory-processing_and_analysis-data_analysis-workflows"),
  ("data management.access", "subcategory-processing_and_analysis-data_management-access"),
  ("data management.annotation", "subcategory-processing_and_analysis-data_management-annotation"),
  ("data management.anonymisation", "subcategory-processing_and_analysis-data_management-anonymisation"),
  ("data management.brokering", "subcategory-processing_and_analysis-data_management-brokering"),
  ("data management.digitisation", "subcategory-processing_and_analysis-data_management-digitisation"),
  ("data management.discovery", "subcategory-processing_and_analysis-data_management-discovery"),
  ("data management.embargo", "subcategory-processing_and_analysis-data_management-embargo"),
  ("data management.interlinking", "subcategory-processing_and_analysis-data_management-interlinking"),
  ("data management.maintenance", "subcategory-processing_and_analysis-data_management-maintenance"),
  ("data management.mining", "subcategory-processing_and_analysis-data_management-mining"),
  ("data management.other", "subcategory-processing_and_analysis-data_management-other"),
  ("data management.persistent identifier", "subcategory-processing_and_analysis-data_management-persistent_identifier"),
  ("data management.preservation", "subcategory-processing_and_analysis-data_management-preservation"),
  ("data management.processing_and_analysis-data_management-publishing", "subcategory-processing_and_analysis-data_management-publishing"),
  ("data management.registration", "subcategory-processing_and_analysis-data_management-registration"),
  ("data management.transfer", "subcategory-processing_and_analysis-data_management-transfer"),
  ("data management.validation", "subcategory-processing_and_analysis-data_management-validation"),
  ("measurement & materials analysis.analysis", "subcategory-processing_and_analysis-measurement_and_materials_analysis-analysis"),
  ("measurement & materials analysis.characterisation", "subcategory-processing_and_analysis-measurement_and_materials_analysis-characterisation"),
  ("measurement & materials analysis.maintenance & modification", "subcategory-processing_and_analysis-measurement_and_materials_analysis-maintenance_and_modification"),
  ("measurement & materials analysis.other", "subcategory-processing_and_analysis-measurement_and_materials_analysis-other"),
  ("measurement & materials analysis.production", "subcategory-processing_and_analysis-measurement_and_materials_analysis-production"),
  ("measurement & materials analysis.testing & validation", "subcategory-processing_and_analysis-measurement_and_materials_analysis-testing_and_validation"),
  ("measurement & materials analysis.validation", "subcategory-processing_and_analysis-measurement_and_materials_analysis-validation"),
  ("measurement & materials analysis.workflows", "subcategory-processing_and_analysis-measurement_and_materials_analysis-workflows"),
  ("operations & infrastructure management services.accounting", "subcategory-security_and_operations-operations_and_infrastructure_management_services-accounting"),
  ("operations & infrastructure management services.analysis", "subcategory-security_and_operations-operations_and_infrastructure_management_services-analysis"),
  ("operations & infrastructure management services.billing", "subcategory-security_and_operations-operations_and_infrastructure_management_services-billing"),
  ("operations & infrastructure management services.configuration", "subcategory-security_and_operations-operations_and_infrastructure_management_services-configuration"),
  ("operations & infrastructure management services.coordination", "subcategory-security_and_operations-operations_and_infrastructure_management_services-coordination"),
  ("operations & infrastructure management services.helpdesk", "subcategory-security_and_operations-operations_and_infrastructure_management_services-helpdesk"),
  ("operations & infrastructure management services.monitoring", "subcategory-security_and_operations-operations_and_infrastructure_management_services-monitoring"),
  ("operations & infrastructure management services.order management", "subcategory-security_and_operations-operations_and_infrastructure_management_services-order_management"),
  ("operations & infrastructure management services.other", "subcategory-security_and_operations-operations_and_infrastructure_management_services-other"),
  ("operations & infrastructure management services.transportation", "subcategory-security_and_operations-operations_and_infrastructure_management_services-transportation"),
  ("operations & infrastructure management services.utilities", "subcategory-security_and_operations-operations_and_infrastructure_management_services-utilities"),
  ("security & identity.certification authority", "subcategory-security_and_operations-security_and_identity-certification_authority"),
  ("security & identity.coordination", "subcategory-security_and_operations-security_and_identity-coordination"),
  ("security & identity.firewall", "subcategory-security_and_operations-security_and_identity-firewall"),
  ("security & identity.group management", "subcategory-security_and_operations-security_and_identity-group_management"),
  ("security & identity.identity & access management", "subcategory-security_and_operations-security_and_identity-identity_and_access_management"),
  ("security & identity.other", "subcategory-security_and_operations-security_and_identity-other"),
  ("security & identity.single sign-on", "subcategory-security_and_operations-security_and_identity-single_sign_on"),
  ("security & identity.threat protection", "subcategory-security_and_operations-security_and_identity-threat_protection"),
  ("security & identity.tools", "subcategory-security_and_operations-security_and_identity-tools"),
  ("security & identity.user authentication", "subcategory-security_and_operations-security_and_identity-user_authentication"),
  ("applications.applications repository", "subcategory-sharing_and_discovery-applications-applications_repository"),
  ("applications.business", "subcategory-sharing_and_discovery-applications-business"),
  ("applications.collaboration", "subcategory-sharing_and_discovery-applications-collaboration"),
  ("applications.communication", "subcategory-sharing_and_discovery-applications-communication"),
  ("applications.education", "subcategory-sharing_and_discovery-applications-education"),
  ("applications.other", "subcategory-sharing_and_discovery-applications-other"),
  ("applications.productivity", "subcategory-sharing_and_discovery-applications-productivity"),
  ("applications.social/networking", "subcategory-sharing_and_discovery-applications-social_networking"),
  ("applications.utilities", "subcategory-sharing_and_discovery-applications-utilities"),
  ("data.clinical trial data", "subcategory-sharing_and_discovery-data-clinical_trial_data"),
  ("data.data archives", "subcategory-sharing_and_discovery-data-data_archives"),
  ("data.epidemiological data", "subcategory-sharing_and_discovery-data-epidemiological_data"),
  ("data.government & agency data", "subcategory-sharing_and_discovery-data-government_and_agency_data"),
  ("data.online service data", "subcategory-sharing_and_discovery-data-online_service_data"),
  ("data.other", "subcategory-sharing_and_discovery-data-other"),
  ("data.scientific/research data", "subcategory-sharing_and_discovery-data-scientific_research_data"),
  ("data.statistical data", "subcategory-sharing_and_discovery-data-statistical_data"),
  ("development resources.apis repository/gateway", "subcategory-sharing_and_discovery-development_resources-apis_repository_gateway"),
  ("development resources.developer tools", "subcategory-sharing_and_discovery-development_resources-developer_tools"),
  ("development resources.other", "subcategory-sharing_and_discovery-development_resources-other"),
  ("development resources.software development kits", "subcategory-sharing_and_discovery-development_resources-software_development_kits"),
  ("development resources.software libraries", "subcategory-sharing_and_discovery-development_resources-software_libraries"),
  ("samples.biological samples", "subcategory-sharing_and_discovery-samples-biological_samples"),
  ("samples.characterisation", "subcategory-sharing_and_discovery-samples-characterisation"),
  ("samples.chemical compounds library", "subcategory-sharing_and_discovery-samples-chemical_compounds_library"),
  ("samples.other", "subcategory-sharing_and_discovery-samples-other"),
  ("samples.preparation", "subcategory-sharing_and_discovery-samples-preparation"),
  ("scholarly communication.analysis", "subcategory-sharing_and_discovery-scholarly_communication-analysis"),
  ("scholarly communication.assessment", "subcategory-sharing_and_discovery-scholarly_communication-assessment"),
  ("scholarly communication.discovery", "subcategory-sharing_and_discovery-scholarly_communication-discovery"),
  ("scholarly communication.other", "subcategory-sharing_and_discovery-scholarly_communication-other"),
  ("scholarly communication.outreach", "subcategory-sharing_and_discovery-scholarly_communication-outreach"),
  ("scholarly communication.preparation", "subcategory-sharing_and_discovery-scholarly_communication-preparation"),
  ("scholarly communication.publication", "subcategory-sharing_and_discovery-scholarly_communication-publication"),
  ("scholarly communication.writing", "subcategory-sharing_and_discovery-scholarly_communication-writing"),
  ("software.libraries", "subcategory-sharing_and_discovery-software-libraries"),
  ("software.other", "subcategory-sharing_and_discovery-software-other"),
  ("software.platform", "subcategory-sharing_and_discovery-software-platform"),
  ("software.software package", "subcategory-sharing_and_discovery-software-software_package"),
  ("software.software repository", "subcategory-sharing_and_discovery-software-software_repository"),
  ("consultancy & support.application optimisation", "subcategory-training_and_support-consultancy_and_support-application_optimisation"),
  ("consultancy & support.application_porting", "subcategory-training_and_support-consultancy_and_support-application_porting"),
  ("consultancy & support.application scaling", "subcategory-training_and_support-consultancy_and_support-application_scaling"),
  ("consultancy & support.audit & assessment", "subcategory-training_and_support-consultancy_and_support-audit_and_assessment"),
  ("consultancy & support.benchmarking", "subcategory-training_and_support-consultancy_and_support-benchmarking"),
  ("consultancy & support.calibration", "subcategory-training_and_support-consultancy_and_support-calibration"),
  ("consultancy & support.certification", "subcategory-training_and_support-consultancy_and_support-certification"),
  ("consultancy & support.consulting", "subcategory-training_and_support-consultancy_and_support-consulting"),
  ("consultancy & support.methodology development", "subcategory-training_and_support-consultancy_and_support-methodology_development"),
  ("consultancy & support.modeling & simulation", "subcategory-training_and_support-consultancy_and_support-modeling_and_simulation"),
  ("consultancy & support.other", "subcategory-training_and_support-consultancy_and_support-other"),
  ("consultancy & support.prototype development", "subcategory-training_and_support-consultancy_and_support-prototype_development"),
  ("consultancy & support.software development", "subcategory-training_and_support-consultancy_and_support-software_development"),
  ("consultancy & support.software improvement", "subcategory-training_and_support-consultancy_and_support-software_improvement"),
  ("consultancy & support.technology transfer", "subcategory-training_and_support-consultancy_and_support-technology_transfer"),
  ("consultancy & support.testing", "subcategory-training_and_support-consultancy_and_support-testing"),
  ("education & training.in-house courses", "subcategory-training_and_support-education_and_training-in_house_courses"),
  ("education & training.online courses", "subcategory-training_and_support-education_and_training-online_courses"),
  ("education & training.open registration courses", "subcategory-training_and_support-education_and_training-open_registration_courses"),
  ("education & training.other", "subcategory-training_and_support-education_and_training-other"),
  ("education & training.related training", "subcategory-training_and_support-education_and_training-related_training"),
  ("education & training.required training", "subcategory-training_and_support-education_and_training-required_training"),
  ("education & training.training platform", "subcategory-training_and_support-education_and_training-training_platform"),
  ("education & training.training tool", "subcategory-training_and_support-education_and_training-training_tool")]

def CV_CAT_MAPPING : List (String × String) := [
  ("subcategory-access_physical_and_eInfrastructures-compute-container_management", "category-access_physical_and_eInfrastructures-compute"),
  ("subcategory-access_physical_and_eInfrastructures-compute-job_execution", "category-access_physical_and_eInfrastructures-compute"),
  ("subcategory-access_physical_and_eInfrastructures-compute-orchestration", "category-access_physical_and_eInfrastructures-compute"),
  ("subcategory-access_physical_and_eInfrastructures-compute-other", "category-access_physical_and_eInfrastructures-compute"),
  ("subcategory-access_physical_and_eInfrastructures-compute-serverless_applications_repository", "category-access_physical_and_eInfrastructures-compute"),
  ("subcategory-access_physical_and_eInfrastructures-compute-virtual_machine_management", "category-access_physical_and_eInfrastructures-compute"),
  ("subcategory-access_physical_and_eInfrastructures-compute-workload_management", "category-access_physical_and_eInfrastructures-compute"),
  ("subcategory-access_physical_and_eInfrastructures-data_storage-archive", "category-access_physical_and_eInfrastructures-data_storage"),
  ("subcategory-access_physical_and_eInfrastructures-data_storage-backup", "category-access_physical_and_eInfrastructures-data_storage"),
  ("subcategory-access_physical_and_eInfrastructures-data_storage-data", "category-access_physical_and_eInfrastructures-data_storage"),
  ("subcategory-access_physical_and_eInfrastructures-data_storage-digital_preservation", "category-access_physical_and_eInfrastructures-data_storage"),
  ("subcategory-access_physical_and_eInfrastructures-data_storage-disk", "category-access_physical_and_eInfrastructures-data_storage"),
  ("subcategory-access_physical_and_eInfrastructures-data_storage-file", "category-access_physical_and_eInfrastructures-data_storage"),
  ("subcategory-access_physical_and_eInfrastructures-data_storage-online", "category-access_physical_and_eInfrastructures-data_storage"),
  ("subcategory-access_physical_and_eInfrastructures-data_storage-other", "category-access_physical_and_eInfrastructures-data_storage"),
  ("subcategory-access_physical_and_eInfrastructures-data_storage-queue", "category-access_physical_and_eInfrastructures-data_storage"),
  ("subcategory-access_physical_and_eInfrastructures-data_storage-recovery", "category-access_physical_and_eInfrastructures-data_storage"),
  ("subcategory-access_physical_and_eInfrastructures-data_storage-replicated", "category-access_physical_and_eInfrastructures-data_storage"),
  ("subcategory-access_physical_and_eInfrastructures-data_storage-synchronised", "category-access_physical_and_eInfrastructures-data_storage"),
  ("subcategory-access_physical_and_eInfrastructures-instrument_and_equipment-chromatographer", "category-access_physical_and_eInfrastructures-instrument_and_equipment"),
  ("subcategory-access_physical_and_eInfrastructures-instrument_and_equipment-cytometer", "category-access_physical_and_eInfrastructures-instrument_and_equipment"),
  ("subcategory-access_physical_and_eInfrastructures-instrument_and_equipment-digitisation_equipment", "category-access_physical_and_eInfrastructures-instrument_and_equipment"),
  ("subcategory-access_physical_and_eInfrastructures-instrument_and_equipment-geophysical", "category-access_physical_and_eInfrastructures-instrument_and_equipment"),
  ("subcategory-access_physical_and_eInfrastructures-instrument_and_equipment-laser", "category-access_physical_and_eInfrastructures-instrument_and_equipment"),
  ("subcategory-access_physical_and_eInfrastructures-instrument_and_equipment-microscopy", "category-access_physical_and_eInfrastructures-instrument_and_equipment"),
  ("subcategory-access_physical_and_eInfrastructures-instrument_and_equipment-monument_maintenance_equipment", "category-access_physical_and_eInfrastructures-instrument_and_equipment"),
  ("subcategory-access_physical_and_eInfrastructures-instrument_and_equipment-other", "category-access_physical_and_eInfrastructures-instrument_and_equipment"),
  ("subcategory-access_physical_and_eInfrastructures-instrument_and_equipment-radiation", "category-access_physical_and_eInfrastructures-instrument_and_equipment"),
  ("subcategory-access_physical_and_eInfrastructures-instrument_and_equipment-spectrometer", "category-access_physical_and_eInfrastructures-instrument_and_equipment"),
  ("subcategory-access_physical_and_eInfrastructures-instrument_and_equipment-spectrophotometer", "category-access_physical_and_eInfrastructures-instrument_and_equipment"),
  ("subcategory-access_physical_and_eInfrastructures-material_storage-archiving", "category-access_physical_and_eInfrastructures-material_storage"),
  ("subcategory-access_physical_and_eInfrastructures-material_storage-assembly", "category-access_physical_and_eInfrastructures-material_storage"),
  ("subcategory-access_physical_and_eInfrastructures-material_storage-disposal", "category-access_physical_and_eInfrastructures-material_storage"),
  ("subcategory-access_physical_and_eInfrastructures-material_storage-fulfilment", "category-access_physical_and_eInfrastructures-material_storage"),
  ("subcategory-access_physical_and_eInfrastructures-material_storage-other", "category-access_physical_and_eInfrastructures-material_storage"),
  ("subcategory-access_physical_and_eInfrastructures-material_storage-packaging", "category-access_physical_and_eInfrastructures-material_storage"),
  ("subcategory-access_physical_and_eInfrastructures-material_storage-preservation", "category-access_physical_and_eInfrastructures-material_storage"),
  ("subcategory-access_physical_and_eInfrastructures-material_storage-quality_inspecting", "category-access_physical_and_eInfrastructures-material_storage"),
  ("subcategory-access_physical_and_eInfrastructures-material_storage-repository", "category-access_physical_and_eInfrastructures-material_storage"),
  ("subcategory-access_physical_and_eInfrastructures-material_storage-reworking", "category-access_physical_and_eInfrastructures-material_storage"),
  ("subcategory-access_physical_and_eInfrastructures-material_storage-sorting", "category-access_physical_and_eInfrastructures-material_storage"),
  ("subcategory-access_physical_and_eInfrastructures-material_storage-warehousing", "category-access_physical_and_eInfrastructures-material_storage"),
  ("subcategory-access_physical_and_eInfrastructures-network-content_delivery_network", "category-access_physical_and_eInfrastructures-network"),
  ("subcategory-access_physical_and_eInfrastructures-network-direct_connect", "category-access_physical_and_eInfrastructures-network"),
  ("subcategory-access_physical_and_eInfrastructures-network-exchange", "category-access_physical_and_eInfrastructures-network"),
  ("subcategory-access_physical_and_eInfrastructures-network-load_balancer", "category-access_physical_and_eInfrastructures-network"),
  ("subcategory-access_physical_and_eInfrastructures-network-other", "category-access_physical_and_eInfrastructures-network"),
  ("subcategory-access_physical_and_eInfrastructures-network-traffic_manager", "category-access_physical_and_eInfrastructures-network"),
  ("subcategory-access_physical_and_eInfrastructures-network-virtual_nework", "category-access_physical_and_eInfrastructures-network"),
  ("subcategory-access_physical_and_eInfrastructures-network-vpn_gateway", "category-access_physical_and_eInfrastructures-network"),
  ("subcategory-aggregators_and_integrators-aggregators_and_integrators-applications", "category-aggregators_and_integrators-aggregators_and_integrators"),
  ("subcategory-aggregators_and_integrators-aggregators_and_integrators-data", "category-aggregators_and_integrators-aggregators_and_integrators"),
  ("subcategory-aggregators_and_integrators-aggregators_and_integrators-other", "category-aggregators_and_integrators-aggregators_and_integrators"),
  ("subcategory-aggregators_and_integrators-aggregators_and_integrators-services", "category-aggregators_and_integrators-aggregators_and_integrators"),
  ("subcategory-aggregators_and_integrators-aggregators_and_integrators-software", "category-aggregators_and_integrators-aggregators_and_integrators"),
  ("subcategory-other-other-other", "category-other-other"),
  ("subcategory-processing_and_analysis-data_analysis-2d_3d_digitisation", "category-processing_and_analysis-data_analysis"),
  ("subcategory-processing_and_analysis-data_analysis-artificial_intelligence", "category-processing_and_analysis-data_analysis"),
  ("subcategory-processing_and_analysis-data_analysis-data_exploitation", "category-processing_and_analysis-data_analysis"),
  ("subcategory-processing_and_analysis-data_analysis-forecast", "category-processing_and_analysis-data_analysis"),
  ("subcategory-processing_and_analysis-data_analysis-image_data_analysis", "category-processing_and_analysis-data_analysis"),
  ("subcategory-processing_and_analysis-data_analysis-machine_learning", "category-processing_and_analysis-data_analysis"),
  ("subcategory-processing_and_analysis-data_analysis-other", "category-processing_and_analysis-data_analysis"),
  ("subcategory-processing_and_analysis-data_analysis-visualization", "category-processing_and_analysis-data_analysis"),
  ("subcategory-processing_and_analysis-data_analysis-workflows", "category-processing_and_analysis-data_analysis"),
  ("subcategory-processing_and_analysis-data_management-access", "category-processing_and_analysis-data_management"),
  ("subcategory-processing_and_analysis-data_management-annotation", "category-processing_and_analysis-data_management"),
  ("subcategory-processing_and_analysis-data_management-anonymisation", "category-processing_and_analysis-data_management"),
  ("subcategory-processing_and_analysis-data_management-brokering", "category-processing_and_analysis-data_management"),
  ("subcategory-processing_and_analysis-data_management-digitisation", "category-processing_and_analysis-data_management"),
  ("subcategory-processing_and_analysis-data_management-discovery", "category-processing_and_analysis-data_management"),
  ("subcategory-processing_and_analysis-data_management-embargo", "category-processing_and_analysis-data_management"),
  ("subcategory-processing_and_analysis-data_management-interlinking", "category-processing_and_analysis-data_management"),
  ("subcategory-processing_and_analysis-data_management-maintenance", "category-processing_and_analysis-data_management"),
  ("subcategory-processing_and_analysis-data_management-mining", "category-processing_and_analysis-data_management"),
  ("subcategory-processing_and_analysis-data_management-other", "category-processing_and_analysis-data_management"),
  ("subcategory-processing_and_analysis-data_management-persistent_identifier", "category-processing_and_analysis-data_management"),
  ("subcategory-processing_and_analysis-data_management-preservation", "category-processing_and_analysis-data_management"),
  ("subcategory-processing_and_analysis-data_management-publishing", "category-processing_and_analysis-data_management"),
  ("subcategory-processing_and_analysis-data_management-registration", "category-processing_and_analysis-data_management"),
  ("subcategory-processing_and_analysis-data_management-transfer", "category-processing_and_analysis-data_management"),
  ("subcategory-processing_and_analysis-data_management-validation", "category-processing_and_analysis-data_management"),
  ("subcategory-processing_and_analysis-measurement_and_materials_analysis-analysis", "category-processing_and_analysis-measurement_and_materials_analysis"),
  ("subcategory-processing_and_analysis-measurement_and_materials_analysis-characterisation", "category-processing_and_analysis-measurement_and_materials_analysis"),
  ("subcategory-processing_and_analysis-measurement_and_materials_analysis-maintenance_and_modification", "category-processing_and_analysis-measurement_and_materials_analysis"),
  ("subcategory-processing_and_analysis-measurement_and_materials_analysis-other", "category-processing_and_analysis-measurement_and_materials_analysis"),
  ("subcategory-processing_and_analysis-measurement_and_materials_analysis-production", "category-processing_and_analysis-measurement_and_materials_analysis"),
  ("subcategory-processing_and_analysis-measurement_and_materials_analysis-testing_and_validation", "category-processing_and_analysis-measurement_and_materials_analysis"),
  ("subcategory-processing_and_analysis-measurement_and_materials_analysis-validation", "category-processing_and_analysis-measurement_and_materials_analysis"),
  ("subcategory-processing_and_analysis-measurement_and_materials_analysis-workflows", "category-processing_and_analysis-measurement_and_materials_analysis"),
  ("subcategory-security_and_operations-operations_and_infrastructure_management_services-accounting", "category-security_and_operations-operations_and_infrastructure_management_services"),
  ("subcategory-security_and_operations-operations_and_infrastructure_management_services-analysis", "category-security_and_operations-operations_and_infrastructure_management_services"),
  ("subcategory-security_and_operations-operations_and_infrastructure_management_services-billing", "category-security_and_operations-operations_and_infrastructure_management_services"),
  ("subcategory-security_and_operations-operations_and_infrastructure_management_services-configuration", "category-security_and_operations-operations_and_infrastructure_management_services"),
  ("subcategory-security_and_operations-operations_and_infrastructure_management_services-coordination", "category-security_and_operations-operations_and_infrastructure_management_services"),
  ("subcategory-security_and_operations-operations_and_infrastructure_management_services-helpdesk", "category-security_and_operations-operations_and_infrastructure_management_services"),
  ("subcategory-security_and_operations-operations_and_infrastructure_management_services-monitoring", "category-security_and_operations-operations_and_infrastructure_management_services"),
  ("subcategory-security_and_operations-operations_and_infrastructure_management_services-order_management", "category-security_and_operations-operations_and_infrastructure_management_services"),
  ("subcategory-security_and_operations-operations_and_infrastructure_management_services-other", "category-security_and_operations-operations_and_infrastructure_management_services"),
  ("subcategory-security_and_operations-operations_and_infrastructure_management_services-transportation", "category-security_and_operations-operations_and_infrastructure_management_services"),
  ("subcategory-security_and_operations-operations_and_infrastructure_management_services-utilities", "category-security_and_operations-operations_and_infrastructure_management_services"),
  ("subcategory-security_and_operations-security_and_identity-certification_authority", "category-security_and_operations-security_and_identity"),
  ("subcategory-security_and_operations-security_and_identity-coordination", "category-security_and_operations-security_and_identity"),
  ("subcategory-security_and_operations-security_and_identity-firewall", "category-security_and_operations-security_and_identity"),
  ("subcategory-security_and_operations-security_and_identity-group_management", "category-security_and_operations-security_and_identity"),
  ("subcategory-security_and_operations-security_and_identity-identity_and_access_management", "category-security_and_operations-security_and_identity"),
  ("subcategory-security_and_operations-security_and_identity-other", "category-security_and_operations-security_and_identity"),
  ("subcategory-security_and_operations-security_and_identity-single_sign_on", "category-security_and_operations-security_and_identity"),
  ("subcategory-security_and_operations-security_and_identity-threat_protection", "category-security_and_operations-security_and_identity"),
  ("subcategory-security_and_operations-security_and_identity-tools", "category-security_and_operations-security_and_identity"),
  ("subcategory-security_and_operations-security_and_identity-user_authentication", "category-security_and_operations-security_and_identity"),
  ("subcategory-sharing_and_discovery-applications-applications_repository", "category-sharing_and_discovery-applications"),
  ("subcategory-sharing_and_discovery-applications-business", "category-sharing_and_discovery-applications"),
  ("subcategory-sharing_and_discovery-applications-collaboration", "category-sharing_and_discovery-applications"),
  ("subcategory-sharing_and_discovery-applications-communication", "category-sharing_and_discovery-applications"),
  ("subcategory-sharing_and_discovery-applications-education", "category-sharing_and_discovery-applications"),
  ("subcategory-sharing_and_discovery-applications-other", "category-sharing_and_discovery-applications"),
  ("subcategory-sharing_and_discovery-applications-productivity", "category-sharing_and_discovery-applications"),
  ("subcategory-sharing_and_discovery-applications-social_networking", "category-sharing_and_discovery-applications"),
  ("subcategory-sharing_and_discovery-applications-utilities", "category-sharing_and_discovery-applications"),
  ("subcategory-sharing_and_discovery-data-clinical_trial_data", "category-sharing_and_discovery-data"),
  ("subcategory-sharing_and_discovery-data-data_archives", "category-sharing_and_discovery-data"),
  ("subcategory-sharing_and_discovery-data-epidemiological_data", "category-sharing_and_discovery-data"),
  ("subcategory-sharing_and_discovery-data-government_and_agency_data", "category-sharing_and_discovery-data"),
  ("subcategory-sharing_and_discovery-data-online_service_data", "category-sharing_and_discovery-data"),
  ("subcategory-sharing_and_discovery-data-other", "category-sharing_and_discovery-data"),
  ("subcategory-sharing_and_discovery-data-scientific_research_data", "category-sharing_and_discovery-data"),
  ("subcategory-sharing_and_discovery-data-statistical_data", "category-sharing_and_discovery-data"),
  ("subcategory-sharing_and_discovery-development_resources-apis_repository_gateway", "category-sharing_and_discovery-development_resources"),
  ("subcategory-sharing_and_discovery-development_resources-developer_tools", "category-sharing_and_discovery-development_resources"),
  ("subcategory-sharing_and_discovery-development_resources-other", "category-sharing_and_discovery-development_resources"),
  ("subcategory-sharing_and_discovery-development_resources-software_development_kits", "category-sharing_and_discovery-development_resources"),
  ("subcategory-sharing_and_discovery-development_resources-software_libraries", "category-sharing_and_discovery-development_resources"),
  ("subcategory-sharing_and_discovery-samples-biological_samples", "category-sharing_and_discovery-samples"),
  ("subcategory-sharing_and_discovery-samples-characterisation", "category-sharing_and_discovery-samples"),
  ("subcategory-sharing_and_discovery-samples-chemical_compounds_library", "category-sharing_and_discovery-samples"),
  ("subcategory-sharing_and_discovery-samples-other", "category-sharing_and_discovery-samples"),
  ("subcategory-sharing_and_discovery-samples-preparation", "category-sharing_and_discovery-samples"),
  ("subcategory-sharing_and_discovery-scholarly_communication-analysis", "category-sharing_and_discovery-scholarly_communication"),
  ("subcategory-sharing_and_discovery-scholarly_communication-assessment", "category-sharing_and_discovery-scholarly_communication"),
  ("subcategory-sharing_and_discovery-scholarly_communication-discovery", "category-sharing_and_discovery-scholarly_communication"),
  ("subcategory-sharing_and_discovery-scholarly_communication-other", "category-sharing_and_discovery-scholarly_communication"),
  ("subcategory-sharing_and_discovery-scholarly_communication-outreach", "category-sharing_and_discovery-scholarly_communication"),
  ("subcategory-sharing_and_discovery-scholarly_communication-preparation", "category-sharing_and_discovery-scholarly_communication"),
  ("subcategory-sharing_and_discovery-scholarly_communication-publication", "category-sharing_and_discovery-scholarly_communication"),
  ("subcategory-sharing_and_discovery-scholarly_communication-writing", "category-sharing_and_discovery-scholarly_communication"),
  ("subcategory-sharing_and_discovery-software-libraries", "category-sharing_and_discovery-software"),
  ("subcategory-sharing_and_discovery-software-other", "category-sharing_and_discovery-software"),
  ("subcategory-sharing_and_discovery-software-platform", "category-sharing_and_discovery-software"),
  ("subcategory-sharing_and_discovery-software-software_package", "category-sharing_and_discovery-software"),
  ("subcategory-sharing_and_discovery-software-software_repository", "category-sharing_and_discovery-software"),
  ("subcategory-training_and_support-consultancy_and_support-application_optimisation", "category-training_and_support-consultancy_and_support"),
  ("subcategory-training_and_support-consultancy_and_support-application_porting", "category-training_and_support-consultancy_and_support"),
  ("subcategory-training_and_support-consultancy_and_support-application_scaling", "category-training_and_support-consultancy_and_support"),
  ("subcategory-training_and_support-consultancy_and_support-audit_and_assessment", "category-training_and_support-consultancy_and_support"),
  ("subcategory-training_and_support-consultancy_and_support-benchmarking", "category-training_and_support-consultancy_and_support"),
  ("subcategory-training_and_support-consultancy_and_support-calibration", "category-training_and_support-consultancy_and_support"),
  ("subcategory-training_and_support-consultancy_and_support-certification", "category-training_and_support-consultancy_and_support"),
  ("subcategory-training_and_support-consultancy_and_support-consulting", "category-training_and_support-consultancy_and_support"),
  ("subcategory-training_and_support-consultancy_and_support-methodology_development", "category-training_and_support-consultancy_and_support"),
  ("subcategory-training_and_support-consultancy_and_support-modeling_and_simulation", "category-training_and_support-consultancy_and_support"),
  ("subcategory-training_and_support-consultancy_and_support-other", "category-training_and_support-consultancy_and_support"),
  ("subcategory-training_and_support-consultancy_and_support-prototype_development", "category-training_and_support-consultancy_and_support"),
  ("subcategory-training_and_support-consultancy_and_support-software_development", "category-training_and_support-consultancy_and_support"),
  ("subcategory-training_and_support-consultancy_and_support-software_improvement", "category-training_and_support-consultancy_and_support"),
  ("subcategory-training_and_support-consultancy_and_support-technology_transfer", "category-training_and_support-consultancy_and_support"),
  ("subcategory-training_and_support-consultancy_and_support-testing", "category-training_and_support-consultancy_and_support"),
  ("subcategory-training_and_support-education_and_training-in_house_courses", "category-training_and_support-education_and_training"),
  ("subcategory-training_and_support-education_and_training-online_courses", "category-training_and_support-education_and_training"),
  ("subcategory-training_and_support-education_and_training-open_registration_courses", "category-training_and_support-education_and_training"),
  ("subcategory-training_and_support-education_and_training-other", "category-training_and_support-education_and_training"),
  ("subcategory-training_and_support-education_and_training-related_training", "category-training_and_support-education_and_training"),
  ("subcategory-training_and_support-education_and_training-required_training", "category-training_and_support-education_and_training"),
  ("subcategory-training_and_support-education_and_training-training_platform", "category-training_and_support-education_and_training"),
  ("subcategory-training_and_support-education_and_training-training_tool", "category-training_and_support-education_and_training")]

def ACCESS_MODES : List (String × String) := [
  ("free", "access_mode-free"),
  ("free conditionally", "access_mode-free_conditionally"),
  ("other", "access_mode-other"),
  ("paid", "access_mode-paid"),
  ("peer reviewed", "access_mode-peer_reviewed")]

def ACCESS_TYPES : List (String × String) := [
  ("mail-in", "access_type-mail_in"),
  ("other", "access_type-other"),
  ("physical", "access_type-physical"),
  ("remote", "access_type-remote"),
  ("virtual", "access_type-virtual")]

def LIFE_CYCLE_STATUS : List (String × String) := [
  ("alpha", "life_cycle_status-alpha"),
  ("beta", "life_cycle_status-beta"),
  ("concept", "life_cycle_status-concept"),
  ("design", "life_cycle_status-design"),
  ("discovery", "life_cycle_status-discovery"),
  ("implementation", "life_cycle_status-implementation"),
  ("in containment", "life_cycle_status-in_containment"),
  ("operation", "life_cycle_status-operation"),
  ("other", "life_cycle_status-other"),
  ("planned", "life_cycle_status-planned"),
  ("preparation", "life_cycle_status-preparation"),
  ("production", "life_cycle_status-production"),
  ("retirement", "life_cycle_status-retirement"),
  ("termination", "life_cycle_status-termination")]

def COUNTRIES : List (String × String) := [
  ("andorra", "AD"),
  ("united arab emirates (the)", "AE"),
  ("afghanistan", "AF"),
  ("antigua and barbuda", "AG"),
  ("anguilla", "AI"),
  ("albania", "AL"),
  ("armenia", "AM"),
  ("angola", "AO"),
  ("antarctica", "AQ"),
  ("argentina", "AR"),
  ("american samoa", "AS"),
  ("austria", "AT"),
  ("australia", "AU"),
  ("aruba", "AW"),
  ("åland islands", "AX"),
  ("azerbaijan", "AZ"),
  ("bosnia and herzegovina", "BA"),
  ("barbados", "BB"),
  ("bangladesh", "BD"),
  ("belgium", "BE"),
  ("burkina faso", "BF"),
  ("bulgaria", "BG"),
  ("bahrain", "BH"),
  ("burundi", "BI"),
  ("benin", "BJ"),
  ("saint barthélemy", "BL"),
  ("bermuda", "BM"),
  ("brunei darussalam", "BN"),
  ("bolivia, plurinational state of", "BO"),
  ("bonaire, sint eustatius and saba", "BQ"),
  ("brazil", "BR"),
  ("bahamas (the)", "BS"),
  ("bhutan", "BT"),
  ("bouvet island", "BV"),
  ("botswana", "BW"),
  ("belarus", "BY"),
  ("belize", "BZ"),
  ("canada", "CA"),
  ("cocos (keeling) islands (the)", "CC"),
  ("congo (the democratic republic of the)", "CD"),
  ("central african republic (the)", "CF"),
  ("congo (the)", "CG"),
  ("switzerland", "CH"),
  ("côte d\x27ivoire", "CI"),
  ("cook islands (the)", "CK"),
  ("chile", "CL"),
  ("cameroon", "CM"),
  ("china", "CN"),
  ("colombia", "CO"),
  ("costa rica", "CR"),
  ("cuba", "CU"),
  ("cabo verde", "CV"),
  ("curaçao", "CW"),
  ("christmas island", "CX"),
  ("cyprus", "CY"),
  ("czechia", "CZ"),
  ("germany", "DE"),
  ("djibouti", "DJ"),
  ("denmark", "DK"),
  ("dominica", "DM"),
  ("dominican republic (the)", "DO"),
  ("algeria", "DZ"),
  ("ecuador", "EC"),
  ("estonia", "EE"),
  ("egypt", "EG"),
  ("western sahara", "EH"),
  ("greece", "EL"),
  ("eritrea", "ER"),
  ("spain", "ES"),
  ("ethiopia", "ET"),
  ("finland", "FI"),
  ("fiji", "FJ"),
  ("falkland islands (the) [malvinas]", "FK"),
  ("micronesia (federated states of)", "FM"),
  ("faroe islands", "FO"),
  ("france", "FR"),
  ("gabon", "GA"),
  ("grenada", "GD"),
  ("georgia", "GE"),
  ("french guiana", "GF"),
  ("guernsey", "GG"),
  ("ghana", "GH"),
  ("gibraltar", "GI"),
  ("greenland", "GL"),
  ("gambia (the)", "GM"),
  ("guinea", "GN"),
  ("guadeloupe", "GP"),
  ("equatorial guinea", "GQ"),
  ("south georgia and the south sandwich islands", "GS"),
  ("guatemala", "GT"),
  ("guam", "GU"),
  ("guinea-bissau", "GW"),
  ("guyana", "GY"),
  ("hong kong", "HK"),
  ("heard island and mcdonald islands", "HM"),
  ("honduras", "HN"),
  ("croatia", "HR"),
  ("haiti", "HT"),
  ("hungary", "HU"),
  ("indonesia", "ID"),
  ("ireland", "IE"),
  ("israel", "IL"),
  ("isle of man", "IM"),
  ("india", "IN"),
  ("british indian ocean territory (the)", "IO"),
  ("iraq", "IQ"),
  ("iran (islamic republic of)", "IR"),
  ("iceland", "IS"),
  ("italy", "IT"),
  ("jersey", "JE"),
  ("jamaica", "JM"),
  ("jordan", "JO"),
  ("japan", "JP"),
  ("kenya", "KE"),
  ("kyrgyzstan", "KG"),
  ("cambodia", "KH"),
  ("kiribati", "KI"),
  ("comoros (the)", "KM"),
  ("saint kitts and nevis", "KN"),
  ("korea (the democratic people\x27s republic of)", "KP"),
  ("korea (the republic of)", "KR"),
  ("kuwait", "KW"),
  ("cayman islands (the)", "KY"),
  ("kazakhstan", "KZ"),
  ("lao people\x27s democratic republic (the)", "LA"),
  ("lebanon", "LB"),
  ("saint lucia", "LC"),
  ("liechtenstein", "LI"),
  ("sri lanka", "LK"),
  ("liberia", "LR"),
  ("lesotho", "LS"),
  ("lithuania", "LT"),
  ("luxembourg", "LU"),
  ("latvia", "LV"),
  ("libya", "LY"),
  ("morocco", "MA"),
  ("monaco", "MC"),
  ("moldova (republic of)", "MD"),
  ("montenegro", "ME"),
  ("saint martin (french part)", "MF"),
  ("madagascar", "MG"),
  ("marshall islands (the)", "MH"),
  ("north macedonia", "MK"),
  ("mali", "ML"),
  ("myanmar", "MM"),
  ("mongolia", "MN"),
  ("macao", "MO"),
  ("northern mariana islands (the)", "MP"),
  ("martinique", "MQ"),
  ("mauritania", "MR"),
  ("montserrat", "MS"),
  ("malta", "MT"),
  ("mauritius", "MU"),
  ("maldives", "MV"),
  ("malawi", "MW"),
  ("mexico", "MX"),
  ("malaysia", "MY"),
  ("mozambique", "MZ"),
  ("namibia", "NA"),
  ("new caledonia", "NC"),
  ("niger (the)", "NE"),
  ("norfolk island", "NF"),
  ("nigeria", "NG"),
  ("nicaragua", "NI"),
  ("netherlands (the)", "NL"),
  ("norway", "NO"),
  ("nepal", "NP"),
  ("nauru", "NR"),
  ("niue", "NU"),
  ("new zealand", "NZ"),
  ("oman", "OM"),
  ("other", "OT"),
  ("panama", "PA"),
  ("peru", "PE"),
  ("french polynesia", "PF"),
  ("papua new guinea", "PG"),
  ("philippines (the)", "PH"),
  ("pakistan", "PK"),
  ("poland", "PL"),
  ("saint pierre and miquelon", "PM"),
  ("pitcairn", "PN"),
  ("puerto rico", "PR"),
  ("palestine, state of", "PS"),
  ("portugal", "PT"),
  ("palau", "PW"),
  ("paraguay", "PY"),
  ("qatar", "QA"),
  ("réunion", "RE"),
  ("romania", "RO"),
  ("serbia", "RS"),
  ("russian federation (the)", "RU"),
  ("rwanda", "RW"),
  ("saudi arabia", "SA"),
  ("solomon islands", "SB"),
  ("seychelles", "SC"),
  ("sudan (the)", "SD"),
  ("sweden", "SE"),
  ("singapore", "SG"),
  ("saint helena, ascension and tristan da cunha", "SH"),
  ("slovenia", "SI"),
  ("svalbard and jan mayen", "SJ"),
  ("slovakia", "SK"),
  ("sierra leone", "SL"),
  ("san marino", "SM"),
  ("senegal", "SN"),
  ("somalia", "SO"),
  ("suriname", "SR"),
  ("south sudan", "SS"),
  ("são tomé and príncipe", "ST"),
  ("el salvador", "SV"),
  ("sint maarten (dutch part)", "SX"),
  ("syrian arab republic (the)", "SY"),
  ("eswatini", "SZ"),
  ("turks and caicos islands (the)", "TC"),
  ("chad", "TD"),
  ("french southern territories (the)", "TF"),
  ("togo", "TG"),
  ("thailand", "TH"),
  ("tajikistan", "TJ"),
  ("tokelau", "TK"),
  ("timor-leste", "TL"),
  ("turkmenistan", "TM"),
  ("tunisia", "TN"),
  ("tonga", "TO"),
  ("turkey", "TR"),
  ("trinidad and tobago", "TT"),
  ("tuvalu", "TV"),
  ("taiwan (province of china)", "TW"),
  ("tanzania, united republic of", "TZ"),
  ("ukraine", "UA"),
  ("uganda", "UG"),
  ("united kingdom of great britain and northern ireland (the)", "UK"),
  ("united states minor outlying islands", "UM"),
  ("united states of america (the)", "US"),
  ("uruguay", "UY"),
  ("uzbekistan", "UZ"),
  ("holy see (the)", "VA"),
  ("saint vincent and the grenadines", "VC"),
  ("venezuela (bolivarian republic of)", "VE"),
  ("virgin islands (british)", "VG"),
  ("virgin islands (u.s.)", "VI"),
  ("viet nam", "VN"),
  ("vanuatu", "VU"),
  ("wallis and futuna", "WF"),
  ("samoa", "WS"),
  ("yemen", "YE"),
  ("mayotte", "YT"),
  ("south africa", "ZA"),
  ("zambia", "ZM"),
  ("zimbabwe", "ZW"),
  ("middle earth", "country-middle_earth")]

def TARGET_USERS : List (String × String) := [
  ("businesses", "target_user-businesses"),
  ("funders", "target_user-funders"),
  ("innovators", "target_user-innovators"),
  ("other", "target_user-other"),
  ("policy makers", "target_user-policy_makers"),
  ("providers", "target_user-providers"),
  ("research communities", "target_user-research_communities"),
  ("research groups", "target_user-research_groups"),
  ("research infrastructure managers", "target_user-research_infrastructure_managers"),
  ("research managers", "target_user-research_managers"),
  ("research networks", "target_user-research_networks"),
  ("research organisations", "target_user-research_organisations"),
  ("research projects", "target_user-research_projects"),
  ("researchers", "target_user-researchers"),
  ("resource managers", "target_user-resource_managers"),
  ("resource provider managers", "target_user-resource_provider_managers"),
  ("students", "target_user-students")]

def PROVIDER_IDS : List String := [
  "surf-nl",
  "esa-int",
  "cyfronet",
  "rbi",
  "astron",
  "f6snl",
  "consorci_cee_lab_llum_sincrotro",
  "ubora",
  "grycap",
  "norce",
  "unibi-ub",
  "smartsmear",
  "meeo",
  "msw",
  "bineo",
  "expertai",
  "geant",
  "compbiomed",
  "taltechdata",
  "infrafrontier",
  "upf",
  "isa-ulisboa",
  "bsc-es",
  "elixir-belgium",
  "eudat",
  "eosc-dih",
  "carlzeissm",
  "mobile_observation_integration_service",
  "eiscat",
  "inria",
  "gcc_umcg",
  "elixir-europe",
  "ugr-es",
  "ess_eric",
  "riga_stradins_university",
  "icos_eric",
  "centerdata",
  "sztaki",
  "forth",
  "elixir-uk",
  "phenomenal",
  "asgc",
  "dcc-uk",
  "rasdaman",
  "hn",
  "altec",
  "siris_academic",
  "elixir-italy",
  "ill",
  "cessda-eric",
  "rli",
  "cite",
  "lnec",
  "cineca",
  "ror-org",
  "upv-es",
  "tubitak_ulakbim",
  "clarin-eric",
  "datacite",
  "lnec-pt",
  "osmooc",
  "oslo_university",
  "emso_eric",
  "soleil",
  "inode",
  "cyberbotics",
  "dynaikon",
  "ukaea",
  "ibiom-cnrhttpwwwibiomcnrit",
  "bioexcel",
  "niod",
  "authenix",
  "libnova",
  "cnrsin2p3",
  "jsc-de",
  "umg-br",
  "capsh",
  "lindatclariah-cz",
  "denbi",
  "sobigdata",
  "europeana",
  "ehri",
  "lago",
  "enermaps",
  "dariah_eric",
  "cnr_-_isti",
  "cnio",
  "obp",
  "egi-fed",
  "unige",
  "psi",
  "aginfra",
  "cnb-csic",
  "vi-seem",
  "gesis",
  "inaf",
  "csic",
  "operas",
  "grnet",
  "gbif-es",
  "ifca-csic",
  "arkivum",
  "iisas",
  "ess",
  "cerm-cirmmp",
  "enhancer",
  "cern",
  "sstir",
  "uni-freiburg",
  "lsd-ufcg",
  "eurac",
  "coronis_computing_sl",
  "sks",
  "doabf",
  "incd",
  "cloudferro",
  "figshare",
  "crem",
  "vamdc",
  "creaf",
  "lida",
  "bi_insight",
  "scigne",
  "uit",
  "cnr-iia",
  "sixsq",
  "plantnet",
  "digitalglobe",
  "up",
  "readcoop",
  "ds-wizard",
  "unibo",
  "openminted",
  "jelastic",
  "ceric-eric",
  "scipedia",
  "openknowledgemaps",
  "prace",
  "etais",
  "seadatanet",
  "openbiomaps",
  "vecma",
  "100percentit",
  "iict",
  "acdh-ch",
  "emphasis",
  "bijvoetcenter",
  "e-cam",
  "csc-fi",
  "kit",
  "ubiwhere",
  "cines",
  "tib",
  "hostkey",
  "sites",
  "gbif_portugal",
  "cesnet",
  "scai",
  "d4science",
  "inbelixir-es",
  "olos",
  "desy",
  "komanord",
  "wenmr",
  "it4i_vsb-tuo",
  "vilnius-university",
  "ukri_-_stfc",
  "mundi_web_services",
  "terradue",
  "esrf",
  "instruct-eric",
  "teledyne",
  "t-systems",
  "eodc",
  "trust-it",
  "ipsl",
  "sinergise",
  "hzdr",
  "athena",
  "kit-scc",
  "charles_university",
  "infn",
  "cy-biobank",
  "cscs",
  "treeofscience",
  "iasa",
  "cyi",
  "cesga",
  "predictia",
  "edelweiss_connect",
  "erasmusmc",
  "idea",
  "oxford_e-research_centre",
  "obsparis",
  "umr_map",
  "fssda",
  "openaire",
  "ccsd",
  "ifin-hh",
  "switch",
  "gsi",
  "unifl",
  "elsevier",
  "naes_of_ukraine",
  "creatis",
  "earthwatch",
  "unitartu",
  "gbif",
  "cs_group",
  "bluebridge",
  "collabwith",
  "cc-in2p3cnrs",
  "unimib",
  "genias",
  "openedition",
  "sciences_po",
  "cmcc",
  "cds",
  "psnc",
  "lifewatch-eric",
  "csi_piemonte",
  "european_xfel",
  "mi",
  "dkrz",
  "blue-cloud",
  "ciemat-tic",
  "data_revenue",
  "mz",
  "coard",
  "uni_konstanz",
  "diamond_light_source",
  "gwdg",
  "eox",
  "forschungsdaten",
  "ifremer",
  "crg",
  "materialscloud",
  "fairdi",
  "exoscale",
  "euro-argo",
  "suite5",
  "demo",
  "embl-ebi"]

/-- One Blue-Cloud source record (the fields of `md` that
`extract_bluecloud_metadata` reads): scalars, tag display names, and the
ordered `extras` list of (key, value) pairs. -/
structure SourceRecord where
  id : String
  title : String
  name : String
  version : String
  notes : String
  tags : List String
  extras : List (String × String)
  deriving Repr, DecidableEq, Inhabited

/-- The local variables of `extract_bluecloud_metadata` that the extras loop
(mapping.py lines 379-458 for the initialisation, 466-1186 for the loop)
fills.  `maincontact_name` and `publiccontact_name` are never initialised in
the source (they are only assigned inside their extras branches), so they are
`Option`: `none` models the unbound local.  `eosc_id_loc` models the local
`eosc_id` of the resource-geographic-location branch, also unbound until the
first successful country lookup.  `trl` is `Option` because the source can
assign Python `None` to it. -/
structure MapState where
  messages : List String
  resourceOrganisation : String
  resourceProviders : List String
  webpage : String
  tagline : String
  logo : String
  multimedia_url : String
  multimedia_name : String
  use_case_url : String
  use_case_name : String
  domain_ids : List String
  subdomain_ids : List String
  domain_names : List String
  category_ids : List String
  subcategory_ids : List String
  category_names : List String
  targetUsers : List String
  targetUsersNames : List String
  accessTypes : List String
  accessModes : List String
  geographicalAvailabilities : List String
  languageAvailabilities : List String
  resourceGeographicLocations : List String
  maincontact_name : Option String
  maincontact_email : String
  maincontact_phone : String
  maincontact_position : String
  maincontact_organisation : String
  publiccontact_name : Option String
  publiccontact_email : String
  publiccontact_phone : String
  publiccontact_position : String
  publiccontact_organisation : String
  helpdeskEmail : String
  securityContactEmail : String
  trl : Option String
  lifeCycleStatus : String
  certifications : List String
  standards : List String
  openSourceTechnologies : List String
  lastUpdate : String
  changeLogs : List String
  requiredResources : List String
  relatedResources : List String
  relatedPlatforms : List String
  catalogue : String
  fundingBodies : List String
  fundingPrograms : List String
  grantProjectNames : List String
  helpdeskPage : String
  userManual : String
  termsOfUse : String
  privacyPolicy : String
  accessPolicy : String
  serviceLevel : String
  resourceLevel : String
  trainingInformation : String
  statusMonitoring : String
  maintenance : String
  order : String
  orderType : String
  paymentModel : String
  pricing : String
  eosc_id_loc : Option String
  deriving Repr, DecidableEq, Inhabited

/-- The variable initialisation block (mapping.py lines 379-458), with a given
starting `collected_messages`. -/
def initState (msgs : List String) : MapState where
  messages := msgs
  resourceOrganisation := ""
  resourceProviders := []
  webpage := ""
  tagline := ""
  logo := ""
  multimedia_url := ""
  multimedia_name := ""
  use_case_url := ""
  use_case_name := ""
  domain_ids := []
  subdomain_ids := []
  domain_names := []
  category_ids := []
  subcategory_ids := []
  category_names := []
  targetUsers := []
  targetUsersNames := []
  accessTypes := []
  accessModes := []
  geographicalAvailabilities := []
  languageAvailabilities := []
  resourceGeographicLocations := []
  maincontact_name := none
  maincontact_email := ""
  maincontact_phone := ""
  maincontact_position := ""
  maincontact_organisation := ""
  publiccontact_name := none
  publiccontact_email := ""
  publiccontact_phone := ""
  publiccontact_position := ""
  publiccontact_organisation := ""
  helpdeskEmail := ""
  securityContactEmail := ""
  trl := some ""
  lifeCycleStatus := ""
  certifications := []
  standards := []
  openSourceTechnologies := []
  lastUpdate := ""
  changeLogs := []
  requiredResources := []
  relatedResources := []
  relatedPlatforms := []
  catalogue := ""
  fundingBodies := []
  fundingPrograms := []
  grantProjectNames := []
  helpdeskPage := ""
  userManual := ""
  termsOfUse := ""
  privacyPolicy := ""
  accessPolicy := ""
  serviceLevel := ""
  resourceLevel := ""
  trainingInformation := ""
  statusMonitoring := ""
  maintenance := ""
  order := ""
  orderType := ""
  paymentModel := ""
  pricing := ""
  eosc_id_loc := none

/-- Branch `BasicInformation:Resource Organisation` of the extras loop. -/
def step_resource_organisation (st : MapState) (rawVal : String) : Except String MapState :=
  let r := resource_organisation_case rawVal
  .ok { st with resourceOrganisation := r.1, messages := st.messages ++ r.2.1 }

/-- Branch `BasicInformation:Resource Provider` of the extras loop. -/
def step_resource_provider (st : MapState) (rawVal : String) : Except String MapState :=
  let tmp0 := pyStrip rawVal
  let m1 : List String :=
    if tmp0.length = 0 then
      ["REPORTED TODO: Provider empty. Add d4science? https://support.d4science.org/issues/23120"]
    else []
  let tm2 : String × List String :=
    if tmp0 = "D4Science" then ("d4science", [])
    else if tmp0 = "KNMI" then
      ("d4science",
       ["REPORTED TODO: Corrected field \"resourceProviders\": \"KNMI\" with \"d4science\"!"])
    else (tmp0, [])
  let tm3 : String × List String :=
    if tm2.1 = "https://data.d4science.org/ctlg/Blue-CloudProject/blue-cloud_virtual_research_environment" then
      ("d4science",
       ["REPORTED TODO: Corrected field \"resourceProviders\": \"" ++ tm2.1 ++
          "\" with \"d4science\"! --> https://support.d4science.org/issues/23183"])
    else (tm2.1, [])
  let m4 : List String :=
    if tm3.1.length > 0 && !(PROVIDER_IDS.contains tm3.1) then
      ["Provider id \"" ++ tm3.1 ++ "\" not in list of ids! May fail validation."]
    else []
  .ok { st with messages := st.messages ++ m1 ++ tm2.2 ++ tm3.2 ++ m4,
                resourceProviders := st.resourceProviders ++ [tm3.1] }

/-- Branch `BasicInformation:Webpage` of the extras loop. -/
def step_webpage (st : MapState) (rawVal : String) : Except String MapState :=
  let v := pyStrip rawVal
  .ok { st with webpage := v, messages := (check_is_url v "webpage" true st.messages).2 }

/-- Branch `MarketingInformation:Tagline` of the extras loop. -/
def step_tagline (st : MapState) (rawVal : String) : Except String MapState :=
  let v := pyStrip rawVal
  .ok { st with tagline := v,
                messages := (check_is_string v "tagline" true (some 100) st.messages).2 }

/-- Branch `MarketingInformation:Logo` of the extras loop. -/
def step_logo (st : MapState) (rawVal : String) : Except String MapState :=
  let v := pyStrip rawVal
  .ok { st with logo := v, messages := (check_is_url v "logo" true st.messages).2 }

/-- Branch `MarketingInformation:Multimedia` of the extras loop. -/
def step_multimedia (st : MapState) (rawVal : String) : Except String MapState :=
  let v := pyStrip rawVal
  .ok { st with multimedia_url := v,
                messages := (check_is_url v "multimedia_url" false st.messages).2 }

/-- Branch `MarketingInformation:Multimedia Name` of the extras loop. -/
def step_multimedia_name (st : MapState) (rawVal : String) : Except String MapState :=
  let v := pyStrip rawVal
  .ok { st with multimedia_name := v,
                messages := (check_is_string v "multimedia_name" false (some 100) st.messages).2 }

/-- Branch `MarketingInformation:Use Case` of the extras loop. -/
def step_use_case (st : MapState) (rawVal : String) : Except String MapState :=
  let v := pyStrip rawVal
  .ok { st with use_case_url := v,
                messages := (check_is_url v "use_case_url" false st.messages).2 }

/-- Branch `MarketingInformation:Use Case Name` of the extras loop. -/
def step_use_case_name (st : MapState) (rawVal : String) : Except String MapState :=
  let v := pyStrip rawVal
  .ok { st with use_case_name := v,
                messages := (check_is_string v "use_case_name" false (some 100) st.messages).2 }

/-- Branch `ClassificationInformation:Scientific Domain` of the extras loop. -/
def step_scientific_domain (st : MapState) (rawVal : String) : Except String MapState :=
  let dom_name := pyStrip rawVal
  match pyDictGet CV_DOM (pyLower dom_name) with
  | .error e => .error e
  | .ok dom_id =>
    .ok { st with domain_names := st.domain_names ++ [dom_name],
                  domain_ids := st.domain_ids ++ [dom_id] }

/-- Branch `ClassificationInformation:Scientific Subdomain` of the extras loop. -/
def step_scientific_subdomain (st : MapState) (rawVal : String) : Except String MapState :=
  let s0 := pyStrip rawVal
  let sm : String × List String :=
    if pyContains s0 " and " then
      (pyReplace s0 " and " " & ", ["REPORTED TODO: and/& in subdom_name_long: " ++ s0])
    else (s0, [])
  match (pySplit sm.1 ".").get? 1 with
  | none => .error "IndexError: list index out of range"
  | some _ =>
    match pyDictGet CV_SUBDOM (pyLower sm.1) with
    | .error e => .error e
    | .ok subdom_id =>
      .ok { st with messages := st.messages ++ sm.2,
                    subdomain_ids := st.subdomain_ids ++ [subdom_id] }

/-- Branch `ClassificationInformation:Category` of the extras loop. -/
def step_category (st : MapState) (rawVal : String) : Except String MapState :=
  let cn0 := pyStrip rawVal
  let cm1 : String × List String :=
    if cn0 = "Application" then
      ("Applications",
       ["PROBLEM AT EOSC: Application without s in cat_name: https://support.d4science.org/issues/23180"])
    else (cn0, [])
  let cm2 : String × List String :=
    if pyContains cm1.1 " and " then
      (pyReplace cm1.1 " and " " & ",
       ["REPORTED TODO: and/& in cat_name: " ++ cm1.1 ++ ": https://support.d4science.org/issues/23173"])
    else (cm1.1, [])
  match pyDictGet CV_CAT (pyLower cm2.1) with
  | .error e => .error e
  | .ok cat_id =>
    .ok { st with category_names := st.category_names ++ [cn0],
                  messages := st.messages ++ cm1.2 ++ cm2.2,
                  category_ids := st.category_ids ++ [cat_id] }

/-- Branch `ClassificationInformation:Subcategory` of the extras loop. -/
def step_subcategory (st : MapState) (rawVal : String) : Except String MapState :=
  let s0 := pyStrip rawVal
  let sm1 : String × List String :=
    if pyContains s0 "Application." then
      (pyReplace s0 "Application." "Applications.",
       ["REPORTED HACK: Application without s in subcat_name_long: https://support.d4science.org/issues/23180"])
    else (s0, [])
  let sm2 : String × List String :=
    if pyContains sm1.1 "Development Resource." then
      (pyReplace sm1.1 "Development Resource." "Development Resources.",
       ["REPORTED HACK: Development Resource. without s in subcat_name_long: https://support.d4science.org/issues/23180"])
    else (sm1.1, [])
  let sm3 : String × List String :=
    if pyContains sm2.1 " and " then
      (pyReplace sm2.1 " and " " & ",
       ["REPORTED HACK: and/& in subcategory: " ++ sm2.1 ++ ": https://support.d4science.org/issues/23173"])
    else (sm2.1, [])
  match (pySplit sm3.1 ".").get? 1 with
  | none => .error "IndexError: list index out of range"
  | some _ =>
    match pyDictGet CV_SUBCAT (pyLower sm3.1) with
    | .error e => .error e
    | .ok subcat_id =>
      .ok { st with messages := st.messages ++ sm1.2 ++ sm2.2 ++ sm3.2,
                    subcategory_ids := st.subcategory_ids ++ [subcat_id] }

/-- Branch `ClassificationInformation:Target User` of the extras loop. -/
def step_target_user (st : MapState) (rawVal : String) : Except String MapState :=
  let v0 := pyStrip rawVal
  let vm : String × List String :=
    if v0 = "Researcher groups" then
      ("Research Groups",
       ["REPORTED HACK: replaced field \"targetUsers\": \"Researcher groups\" with \"Research Groups\"! https://support.d4science.org/issues/23184"])
    else (v0, [])
  match pyDictGet TARGET_USERS (pyLower vm.1) with
  | .error e => .error e
  | .ok value_eosc =>
    .ok { st with messages := st.messages ++ vm.2,
                  targetUsersNames := st.targetUsersNames ++ [vm.1],
                  targetUsers := st.targetUsers ++ [value_eosc] }

/-- Branch `ClassificationInformation:Access Type` of the extras loop. -/
def step_access_type (st : MapState) (rawVal : String) : Except String MapState :=
  match pyDictGet ACCESS_TYPES (pyLower (pyStrip rawVal)) with
  | .error e => .error e
  | .ok value_eosc => .ok { st with accessTypes := st.accessTypes ++ [value_eosc] }

/-- Branch `ClassificationInformation:Access Mode` of the extras loop. -/
def step_access_mode (st : MapState) (rawVal : String) : Except String MapState :=
  match pyDictGet ACCESS_MODES (pyLower (pyStrip rawVal)) with
  | .error e => .error e
  | .ok value_eosc => .ok { st with accessModes := st.accessModes ++ [value_eosc] }

/-- Branch `AvailabilityInformation:Geographical Availability` of the extras loop. -/
def step_geographical_availability (st : MapState) (rawVal : String) : Except String MapState :=
  match parse_avail rawVal with
  | .error e => .error e
  | .ok av =>
    if av.2.length > 0 then
      .ok { st with geographicalAvailabilities := st.geographicalAvailabilities ++ [av.2] }
    else
      .ok { st with messages := st.messages ++
              ["Empty string passed for mandatory Geographical Availability"] }

/-- Branch `AvailabilityInformation:Language Availability` of the extras loop. -/
def step_language_availability (st : MapState) (rawVal : String) : Except String MapState :=
  match parse_avail rawVal with
  | .error e => .error e
  | .ok av =>
    if av.2.length > 0 then
      .ok { st with languageAvailabilities := st.languageAvailabilities ++ [av.2] }
    else
      .ok { st with messages := st.messages ++
              ["Empty string passed for mandatory Language Availability"] }

/-- Branch `LocationInformation:Resource Geographic Location` of the extras loop. -/
def step_resource_geographic_location (st : MapState) (rawVal : String) : Except String MapState :=
  let orig := pyStrip rawVal
  match pySplit orig " (" with
  | [nm, _] =>
    (match pyDictGet COUNTRIES (pyLower nm) with
     | .ok i =>
       .ok { st with resourceGeographicLocations := st.resourceGeographicLocations ++ [i],
                     eosc_id_loc := some i }
     | .error _ =>
       -- the KeyError handler appends a message and the raw name, but the
       -- log line that follows reads the local `eosc_id`, which is unbound
       -- unless an earlier lookup in this call succeeded (line 813)
       match st.eosc_id_loc with
       | some _ =>
         let msg := "Could not map \"resourceGeographicLocations\": \"" ++ pyLower nm ++
           "\" not in list of countries"
         .ok { st with messages := st.messages ++ [msg],
                       resourceGeographicLocations := st.resourceGeographicLocations ++ [nm] }
       | none => .error "NameError: name eosc_id is not defined")
  | _ =>
    -- line 799 calls `collected_messages(msg)` on the list object
    .error "TypeError: list object is not callable"

/-- Branch `ContactInformation:Main Contact Name` of the extras loop. -/
def step_main_contact_name (st : MapState) (rawVal : String) : Except String MapState :=
  .ok { st with maincontact_name := some (pyStrip rawVal) }

/-- Branch `ContactInformation:Main Contact Email` of the extras loop. -/
def step_main_contact_email (st : MapState) (rawVal : String) : Except String MapState :=
  let v := pyStrip rawVal
  .ok { st with maincontact_email := v,
                messages := (check_is_email v "maincontact_email" true st.messages).2 }

/-- Branch `ContactInformation:Main Contact Phone` of the extras loop. -/
def step_main_contact_phone (st : MapState) (rawVal : String) : Except String MapState :=
  let v := pyStrip rawVal
  .ok { st with maincontact_phone := v,
                messages := (check_is_string v "maincontact_phone" false (some 20) st.messages).2 }

/-- Branch `ContactInformation:Main Contact Position` of the extras loop. -/
def step_main_contact_position (st : MapState) (rawVal : String) : Except String MapState :=
  let v := pyStrip rawVal
  .ok { st with maincontact_position := v,
                messages := (check_is_string v "maincontact_position" false (some 20) st.messages).2 }

/-- Branch `ContactInformation:Main Contact Organisation` of the extras loop. -/
def step_main_contact_organisation (st : MapState) (rawVal : String) : Except String MapState :=
  let v0 := pyStrip rawVal
  let v := if v0 = "Centro Euro-Mediterraneo sui Cambiamenti Climatici CMCC" then "cmcc" else v0
  .ok { st with maincontact_organisation := v,
                messages := (check_is_string v "maincontact_organisation" false (some 50) st.messages).2 }

/-- Branch `ContactInformation:Public Contact Name` of the extras loop. -/
def step_public_contact_name (st : MapState) (rawVal : String) : Except String MapState :=
  .ok { st with publiccontact_name := some (pyStrip rawVal) }

/-- Branch `ContactInformation:Public Contact Email` of the extras loop. -/
def step_public_contact_email (st : MapState) (rawVal : String) : Except String MapState :=
  let v := pyStrip rawVal
  .ok { st with publiccontact_email := v,
                messages := (check_is_email v "publiccontact_email" true st.messages).2 }

/-- Branch `ContactInformation:Public Contact Phone` of the extras loop. -/
def step_public_contact_phone (st : MapState) (rawVal : String) : Except String MapState :=
  let v := pyStrip rawVal
  .ok { st with publiccontact_phone := v,
                messages := (check_is_string v "publiccontact_phone" false (some 20) st.messages).2 }

/-- Branch `ContactInformation:Public Contact Position` of the extras loop. -/
def step_public_contact_position (st : MapState) (rawVal : String) : Except String MapState :=
  let v := pyStrip rawVal
  .ok { st with publiccontact_position := v,
                messages := (check_is_string v "publiccontact_position" false (some 20) st.messages).2 }

/-- Branch `ContactInformation:Public Contact Organisation` of the extras loop. -/
def step_public_contact_organisation (st : MapState) (rawVal : String) : Except String MapState :=
  let v := pyStrip rawVal
  .ok { st with publiccontact_organisation := v,
                messages := (check_is_string v "publiccontact_organisation" false (some 50) st.messages).2 }

/-- Branch `ContactInformation:Helpdesk Email` of the extras loop. -/
def step_helpdesk_email (st : MapState) (rawVal : String) : Except String MapState :=
  let v := pyStrip rawVal
  .ok { st with helpdeskEmail := v,
                messages := (check_is_email v "helpdeskEmail" true st.messages).2 }

/-- Branch `ContactInformation:Security Contact Email` of the extras loop. -/
def step_security_contact_email (st : MapState) (rawVal : String) : Except String MapState :=
  let v := pyStrip rawVal
  .ok { st with securityContactEmail := v,
                messages := (check_is_email v "securityContactEmail" true st.messages).2 }

/-- Branch `MaturityInformation:Technology Readiness Level` of the extras loop. -/
def step_technology_readiness_level (st : MapState) (rawVal : String) : Except String MapState :=
  let vb := pyStrip rawVal
  if vb.length > 0 && pyStartsWith vb "TRL" then
    let tmp := (pySplit vb " ").headD ""
    -- `int(tmp.replace('TRL', ''))` raises ValueError on a non-integer
    match pyIntParse (pyReplace tmp "TRL" "") with
    | none => .error "ValueError: invalid literal for int"
    | some _ => .ok { st with trl := some (pyReplace tmp "TRL" "trl-") }
  else
    .ok { st with trl := none }

/-- Branch `MaturityInformation:Life Cycle Status` of the extras loop. -/
def step_life_cycle_status (st : MapState) (rawVal : String) : Except String MapState :=
  match pyDictGet LIFE_CYCLE_STATUS (pyLower (pyStrip rawVal)) with
  | .error e => .error e
  | .ok value_eosc => .ok { st with lifeCycleStatus := value_eosc }

/-- Branch `MaturityInformation:Certifications` of the extras loop. -/
def step_certifications (st : MapState) (rawVal : String) : Except String MapState :=
  let v := pyStrip rawVal
  let ms := (check_is_string v "certifications" false (some 100) st.messages).2
  if v.length > 0 then
    .ok { st with messages := ms, certifications := st.certifications ++ [v] }
  else .ok { st with messages := ms }

/-- Branch `MaturityInformation:Standards` of the extras loop. -/
def step_standards (st : MapState) (rawVal : String) : Except String MapState :=
  let v := pyStrip rawVal
  let ms := (check_is_string v "standards" false (some 100) st.messages).2
  if v.length > 0 then
    .ok { st with messages := ms, standards := st.standards ++ [v] }
  else .ok { st with messages := ms }

/-- Branch `MaturityInformation:Open Source Technologies` of the extras loop. -/
def step_open_source_technologies (st : MapState) (rawVal : String) : Except String MapState :=
  let v := rawVal
  let ms := (check_is_string v "openSourceTechnologies" false (some 100) st.messages).2
  if v.length > 0 then
    .ok { st with messages := ms, openSourceTechnologies := st.openSourceTechnologies ++ [v] }
  else .ok { st with messages := ms }

/-- Branch `MaturityInformation:Last Update` of the extras loop. -/
def step_last_update (st : MapState) (rawVal : String) : Except String MapState :=
  let v := pyStrip rawVal
  .ok { st with lastUpdate := v,
                messages := (check_is_date v "lastUpdate" false st.messages).2 }

/-- Branch `MaturityInformation:Change Log` of the extras loop. -/
def step_change_log (st : MapState) (rawVal : String) : Except String MapState :=
  let v := pyStrip rawVal
  let ms := (check_is_string v "change log" false (some 1000) st.messages).2
  if v.length > 0 then
    .ok { st with messages := ms, changeLogs := st.changeLogs ++ [v] }
  else .ok { st with messages := ms }

/-- Branch `DependenciesInformation:Required Resources` of the extras loop. -/
def step_required_resources (st : MapState) (rawVal : String) : Except String MapState :=
  let v := pyStrip rawVal
  if v.length > 0 then .ok { st with requiredResources := st.requiredResources ++ [v] }
  else .ok st

/-- Branch `DependenciesInformation:Related Resources` of the extras loop. -/
def step_related_resources (st : MapState) (rawVal : String) : Except String MapState :=
  let v := pyStrip rawVal
  if v.length > 0 then .ok { st with relatedResources := st.relatedResources ++ [v] }
  else .ok st

/-- Branch `DependenciesInformation:Related Platforms` of the extras loop. -/
def step_related_platforms (st : MapState) (rawVal : String) : Except String MapState :=
  let v := pyStrip rawVal
  if v.length > 0 then .ok { st with relatedPlatforms := st.relatedPlatforms ++ [v] }
  else .ok st

/-- Branch `DependenciesInformation:NONE YET TODO WIP` of the extras loop. -/
def step_none_yet_todo_wip (st : MapState) (rawVal : String) : Except String MapState :=
  .ok { st with messages := st.messages ++ ["Missing key for Catalogue on Blue-Cloud side yet!"],
                catalogue := pyStrip rawVal }

/-- Branch `AttributionInformation:Funding Body` of the extras loop. -/
def step_funding_body (st : MapState) (rawVal : String) : Except String MapState :=
  match pyDictGet FUNDING_BODIES (pyLower (pyStrip rawVal)) with
  | .error e => .error e
  | .ok value_eosc => .ok { st with fundingBodies := st.fundingBodies ++ [value_eosc] }

/-- Branch `AttributionInformation:Funding Program` of the extras loop. -/
def step_funding_program (st : MapState) (rawVal : String) : Except String MapState :=
  match pyDictGet FUNDING_PROGRAMS (pyLower (pyStrip rawVal)) with
  | .error e => .error e
  | .ok value_eosc => .ok { st with fundingPrograms := st.fundingPrograms ++ [value_eosc] }

/-- Branch `AttributionInformation:Project` of the extras loop. -/
def step_project (st : MapState) (rawVal : String) : Except String MapState :=
  let v := pyStrip rawVal
  let ms := (check_is_string v "grantProject" false (some 100) st.messages).2
  if v.length > 0 then
    .ok { st with messages := ms, grantProjectNames := st.grantProjectNames ++ [v] }
  else .ok { st with messages := ms }

/-- Branch `ManagementInformation:Helpdesk Page` of the extras loop. -/
def step_helpdesk_page (st : MapState) (rawVal : String) : Except String MapState :=
  let v := pyStrip rawVal
  .ok { st with helpdeskPage := v,
                messages := (check_is_url v "helpdeskPage" false st.messages).2 }

/-- Branch `ManagementInformation:User Manual` of the extras loop. -/
def step_user_manual (st : MapState) (rawVal : String) : Except String MapState :=
  let v := pyStrip rawVal
  .ok { st with userManual := v,
                messages := (check_is_url v "userManual" false st.messages).2 }

/-- Branch `ManagementInformation:Terms Of Use` of the extras loop. -/
def step_terms_of_use (st : MapState) (rawVal : String) : Except String MapState :=
  let v := pyStrip rawVal
  .ok { st with termsOfUse := v,
                messages := (check_is_url v "termsOfUse" true st.messages).2 }

/-- Branch `ManagementInformation:Privacy Policy` of the extras loop. -/
def step_privacy_policy (st : MapState) (rawVal : String) : Except String MapState :=
  let v := pyStrip rawVal
  .ok { st with privacyPolicy := v,
                messages := (check_is_url v "privacyPolicy" true st.messages).2 }

/-- Branch `ManagementInformation:Access Policy` of the extras loop. -/
def step_access_policy (st : MapState) (rawVal : String) : Except String MapState :=
  let v := pyStrip rawVal
  .ok { st with accessPolicy := v,
                messages := (check_is_url v "accessPolicy" false st.messages).2 }

/-- Branch `ManagementInformation:Service Level` of the extras loop. -/
def step_service_level (st : MapState) (rawVal : String) : Except String MapState :=
  let v := pyStrip rawVal
  .ok { st with serviceLevel := v,
                messages := (check_is_url v "serviceLevel" false st.messages).2 ++
                  ["Deprecated Service Level (\"" ++ v ++ "\"), should now be Resource Level"] }

/-- Branch `ManagementInformation:Resource Level` of the extras loop. -/
def step_resource_level (st : MapState) (rawVal : String) : Except String MapState :=
  let v := pyStrip rawVal
  .ok { st with resourceLevel := v,
                messages := (check_is_url v "resourceLevel" false st.messages).2 }

/-- Branch `ManagementInformation:Training Information` of the extras loop. -/
def step_training_information (st : MapState) (rawVal : String) : Except String MapState :=
  let v := pyStrip rawVal
  .ok { st with trainingInformation := v,
                messages := (check_is_url v "trainingInformation" false st.messages).2 }

/-- Branch `ManagementInformation:Status Monitoring` of the extras loop. -/
def step_status_monitoring (st : MapState) (rawVal : String) : Except String MapState :=
  let v := pyStrip rawVal
  .ok { st with statusMonitoring := v,
                messages := (check_is_url v "statusMonitoring" false st.messages).2 }

/-- Branch `ManagementInformation:Maintenance` of the extras loop. -/
def step_maintenance (st : MapState) (rawVal : String) : Except String MapState :=
  let v := pyStrip rawVal
  .ok { st with maintenance := v,
                messages := (check_is_url v "maintenance" false st.messages).2 }

/-- Branch `AccessOrderInformation:Order Type` of the extras loop. -/
def step_order_type (st : MapState) (rawVal : String) : Except String MapState :=
  let v0 := pyStrip rawVal
  let vm : String × List String :=
    if v0 = "Request/Order required" then
      ("Order required",
       ["PROBLEM AT EOSC: Order Type: EOSC is not sure whether this is a valid value: Request/Order required"])
    else (v0, [])
  match pyDictGet ORDER_TYPES (pyLower vm.1) with
  | .error e => .error e
  | .ok value_eosc =>
    .ok { st with messages := st.messages ++ vm.2, orderType := value_eosc }

/-- Branch `AccessOrderInformation:Order` of the extras loop. -/
def step_order (st : MapState) (rawVal : String) : Except String MapState :=
  let v := pyStrip rawVal
  .ok { st with order := v, messages := (check_is_url v "order" false st.messages).2 }

/-- Branch `FinancialInformation:Payment Model` of the extras loop. -/
def step_payment_model (st : MapState) (rawVal : String) : Except String MapState :=
  let v := pyStrip rawVal
  .ok { st with paymentModel := v,
                messages := (check_is_url v "paymentModel" false st.messages).2 }

/-- Branch `FinancialInformation:Pricing` of the extras loop. -/
def step_pricing (st : MapState) (rawVal : String) : Except String MapState :=
  let v := pyStrip rawVal
  .ok { st with pricing := v,
                messages := (check_is_url v "pricing" false st.messages).2 }

/-- One iteration of the extras loop of `extract_bluecloud_metadata`
(mapping.py lines 466-1186), dispatching on the namespaced key in the
exact `if`/`elif` order of the source to the branch handlers above.  An
unrecognised key is a no-op. -/
def extras_step (st : MapState) (key rawVal : String) : Except String MapState :=
  if key = "BasicInformation:Resource Organisation" then step_resource_organisation st rawVal
  else if key = "BasicInformation:Resource Provider" then step_resource_provider st rawVal
  else if key = "BasicInformation:Webpage" then step_webpage st rawVal
  else if key = "MarketingInformation:Tagline" then step_tagline st rawVal
  else if key = "MarketingInformation:Logo" then step_logo st rawVal
  else if key = "MarketingInformation:Multimedia" then step_multimedia st rawVal
  else if key = "MarketingInformation:Multimedia Name" then step_multimedia_name st rawVal
  else if key = "MarketingInformation:Use Case" then step_use_case st rawVal
  else if key = "MarketingInformation:Use Case Name" then step_use_case_name st rawVal
  else if key = "ClassificationInformation:Scientific Domain" then step_scientific_domain st rawVal
  else if key = "ClassificationInformation:Scientific Subdomain" then step_scientific_subdomain st rawVal
  else if key = "ClassificationInformation:Category" then step_category st rawVal
  else if key = "ClassificationInformation:Subcategory" then step_subcategory st rawVal
  else if key = "ClassificationInformation:Target User" then step_target_user st rawVal
  else if key = "ClassificationInformation:Access Type" then step_access_type st rawVal
  else if key = "ClassificationInformation:Access Mode" then step_access_mode st rawVal
  else if key = "AvailabilityInformation:Geographical Availability" then step_geographical_availability st rawVal
  else if key = "AvailabilityInformation:Language Availability" then step_language_availability st rawVal
  else if key = "LocationInformation:Resource Geographic Location" then step_resource_geographic_location st rawVal
  else if key = "ContactInformation:Main Contact Name" then step_main_contact_name st rawVal
  else if key = "ContactInformation:Main Contact Email" then step_main_contact_email st rawVal
  else if key = "ContactInformation:Main Contact Phone" then step_main_contact_phone st rawVal
  else if key = "ContactInformation:Main Contact Position" then step_main_contact_position st rawVal
  else if key = "ContactInformation:Main Contact Organisation" then step_main_contact_organisation st rawVal
  else if key = "ContactInformation:Public Contact Name" then step_public_contact_name st rawVal
  else if key = "ContactInformation:Public Contact Email" then step_public_contact_email st rawVal
  else if key = "ContactInformation:Public Contact Phone" then step_public_contact_phone st rawVal
  else if key = "ContactInformation:Public Contact Position" then step_public_contact_position st rawVal
  else if key = "ContactInformation:Public Contact Organisation" then step_public_contact_organisation st rawVal
  else if key = "ContactInformation:Helpdesk Email" then step_helpdesk_email st rawVal
  else if key = "ContactInformation:Security Contact Email" then step_security_contact_email st rawVal
  else if key = "MaturityInformation:Technology Readiness Level" then step_technology_readiness_level st rawVal
  else if key = "MaturityInformation:Life Cycle Status" then step_life_cycle_status st rawVal
  else if key = "MaturityInformation:Certifications" then step_certifications st rawVal
  else if key = "MaturityInformation:Standards" then step_standards st rawVal
  else if key = "MaturityInformation:Open Source Technologies" then step_open_source_technologies st rawVal
  else if key = "MaturityInformation:Last Update" then step_last_update st rawVal
  else if key = "MaturityInformation:Change Log" then step_change_log st rawVal
  else if key = "DependenciesInformation:Required Resources" then step_required_resources st rawVal
  else if key = "DependenciesInformation:Related Resources" then step_related_resources st rawVal
  else if key = "DependenciesInformation:Related Platforms" then step_related_platforms st rawVal
  else if key = "DependenciesInformation:NONE YET TODO WIP" then step_none_yet_todo_wip st rawVal
  else if key = "AttributionInformation:Funding Body" then step_funding_body st rawVal
  else if key = "AttributionInformation:Funding Program" then step_funding_program st rawVal
  else if key = "AttributionInformation:Project" then step_project st rawVal
  else if key = "ManagementInformation:Helpdesk Page" then step_helpdesk_page st rawVal
  else if key = "ManagementInformation:User Manual" then step_user_manual st rawVal
  else if key = "ManagementInformation:Terms Of Use" then step_terms_of_use st rawVal
  else if key = "ManagementInformation:Privacy Policy" then step_privacy_policy st rawVal
  else if key = "ManagementInformation:Access Policy" then step_access_policy st rawVal
  else if key = "ManagementInformation:Service Level" then step_service_level st rawVal
  else if key = "ManagementInformation:Resource Level" then step_resource_level st rawVal
  else if key = "ManagementInformation:Training Information" then step_training_information st rawVal
  else if key = "ManagementInformation:Status Monitoring" then step_status_monitoring st rawVal
  else if key = "ManagementInformation:Maintenance" then step_maintenance st rawVal
  else if key = "AccessOrderInformation:Order Type" then step_order_type st rawVal
  else if key = "AccessOrderInformation:Order" then step_order st rawVal
  else if key = "FinancialInformation:Payment Model" then step_payment_model st rawVal
  else if key = "FinancialInformation:Pricing" then step_pricing st rawVal
  else .ok st

/-- The extras loop itself (mapping.py line 466): fold `extras_step` over the
extras in order, propagating the first exception. -/
def run_extras (st : MapState) : List (String × String) → Except String MapState
  | [] => .ok st
  | (k, v) :: rest =>
    match extras_step st k v with
    | .error e => .error e
    | .ok st' => run_extras st' rest

/-- An EOSC contact (the `mainContact` / `publicContacts` sub-dicts,
mapping.py lines 1451-1466). -/
structure Contact where
  firstName : String
  lastName : String
  email : String
  phone : String
  position : String
  organisation : String
  deriving Repr, DecidableEq, Inhabited

/-- The target record assembled at mapping.py lines 1430-1496, field for
field (composite list entries are modelled as pairs: multimedia and use-case
entries as (url, name), scientificDomains and categories as
(parent id, child id)). -/
structure Target where
  blue_id : String
  abbreviation : String
  name : String
  resourceOrganisation : String
  resourceProviders : List String
  webpage : String
  description : String
  tagline : String
  logo : String
  multimedia : List (String × String)
  useCases : List (String × String)
  scientificDomains : List (String × String)
  categories : List (String × String)
  targetUsers : List String
  accessTypes : List String
  accessModes : List String
  tags : List String
  geographicalAvailabilities : List String
  languageAvailabilities : List String
  resourceGeographicLocations : List String
  mainContact : Contact
  publicContacts : List Contact
  helpdeskEmail : String
  securityContactEmail : String
  trl : Option String
  lifeCycleStatus : String
  certifications : List String
  standards : List String
  openSourceTechnologies : List String
  version : String
  lastUpdate : String
  changeLog : List String
  requiredResources : List String
  relatedResources : List String
  relatedPlatforms : List String
  fundingBody : List String
  fundingPrograms : List String
  grantProjectNames : List String
  helpdeskPage : String
  userManual : String
  termsOfUse : String
  privacyPolicy : String
  accessPolicy : String
  serviceLevel : String
  trainingInformation : String
  statusMonitoring : String
  maintenance : String
  orderType : String
  order : String
  paymentModel : String
  pricing : String
  deriving Repr, DecidableEq, Inhabited

/-- Everything one call of `extract_bluecloud_metadata` computes: the target
record, the final `collected_messages`, and `missing_mandatory_items`.  Only
`target` is returned by the source function; the two lists are logged. -/
structure ExtractResult where
  target : Target
  messages : List String
  missing : List String
  deriving Repr, DecidableEq, Inhabited

/-- Stage 1 of the engine (mapping.py lines 329-366): the fields extracted
without iterating over `extras`.  `ABBREVIATIONS[bc_name]` raises `KeyError`
for an unknown service name.  Returns the abbreviation and the
`collected_messages` accumulated so far (abbreviation, eosc_name, version and
per-tag string checks, in source order). -/
def extract_stage1 (md : SourceRecord) : Except String (String × List String) :=
  match pyDictGet ABBREVIATIONS md.name with
  | .error e => .error e
  | .ok abbreviation =>
    let m1 := (check_is_string abbreviation "abbreviation" true (some 20) []).2
    let m2 := (check_is_string md.title "eosc_name" true (some 80) m1).2
    let m3 := (check_is_string md.version "version" false (some 10) m2).2
    let m4 := md.tags.foldl
      (fun acc t => (check_is_string t "tags" false (some 50) acc).2) m3
    .ok (abbreviation, m4)

/-- The post-loop stitching (mapping.py lines 1194-1498): placeholder-sentinel
hard stops, multimedia/use-case composites, contact-name splitting (reading
the possibly-unbound locals), domain/category composite matching, tag
filtering, mandatory-field collection, and assembly of the target dict. -/
def extract_finish (md : SourceRecord) (abbreviation : String) (s : MapState) :
    Except String ExtractResult :=
  if s.multimedia_url = "www.mymedia.org" then
    .error "ValueError: REPORTED URGENT: replaced field \"multimedia\" with \"http://dkrz.de\"! https://support.d4science.org/issues/23123"
  else
    let multimedia_composite : List (String × String) :=
      if s.multimedia_url.length = 0 && s.multimedia_name.length = 0 then []
      else [(s.multimedia_url, s.multimedia_name)]
    if s.use_case_url = "www.ausecase.org" then
      .error "ValueError: REPORTED URGENT: replaced field \"use_case_url\" with \"http://dkrz.de\"! https://support.d4science.org/issues/23123"
    else
      let use_cases_composite : List (String × String) :=
        if s.use_case_url.length = 0 && s.use_case_name.length = 0 then []
        else [(s.use_case_url, s.use_case_name)]
      match s.maincontact_name with
      | none => .error "UnboundLocalError: local variable maincontact_name referenced before assignment"
      | some mcn =>
        match s.publiccontact_name with
        | none => .error "UnboundLocalError: local variable publiccontact_name referenced before assignment"
        | some pcn =>
          let rm := get_name_from_val mcn "maincontact_name" s.messages
          let rp := get_name_from_val pcn "publiccontact_name" rm.2.1
          let mA := (check_is_string rp.1.1 "publiccontact_firstName" false (some 20) rp.2.1).2
          let mB := (check_is_string rp.1.2 "publiccontact_lastName" false (some 20) mA).2
          let mC := (check_is_string rm.1.1 "maincontact_firstName" true (some 20) mB).2
          let mD := (check_is_string rm.1.2 "maincontact_lastName" true (some 20) mC).2
          match match_composites CV_DOM_MAPPING s.domain_ids s.subdomain_ids
              domain_mismatch_msgs domain_unused_msg with
          | .error e => .error e
          | .ok doms =>
            match match_composites CV_CAT_MAPPING s.category_ids s.subcategory_ids
                category_mismatch_msgs category_unused_msg with
            | .error e => .error e
            | .ok cats =>
              let tags1 := filter_tags md.tags s.targetUsersNames s.category_names s.domain_names
              let mE := tags1.foldl
                (fun acc t => (check_is_string t "tags" false (some 50) acc).2) mD
              let description := shorten_description md.notes
              let missing : List String :=
                (if (pyStrip abbreviation).length = 0 then ["abbreviation"] else []) ++
                (if (pyStrip md.title).length = 0 then ["eosc_name"] else []) ++
                (if (pyStrip s.resourceOrganisation).length = 0 then ["resourceOrganisation"] else []) ++
                (if (pyStrip s.webpage).length = 0 then ["webpage"] else []) ++
                (if (pyStrip description).length = 0 then ["description"] else []) ++
                (if (pyStrip s.tagline).length = 0 then ["tagline"] else []) ++
                (if (pyStrip s.logo).length = 0 then ["logo"] else []) ++
                (doms.1.foldl (fun acc pr =>
                  acc ++ (if (pyStrip pr.1).length = 0 then ["scientificDomain"] else []) ++
                    (if (pyStrip pr.2).length = 0 then ["scientificSubdomain"] else [])) []) ++
                (cats.1.foldl (fun acc pr =>
                  acc ++ (if (pyStrip pr.1).length = 0 then ["category"] else []) ++
                    (if (pyStrip pr.2).length = 0 then ["subcategory"] else [])) []) ++
                (if s.targetUsers.length = 0 then ["targetUsers"] else []) ++
                (s.geographicalAvailabilities.foldl (fun acc it =>
                  acc ++ (if it.length = 0 then ["geographicalAvailabilities"] else [])) []) ++
                (s.languageAvailabilities.foldl (fun acc it =>
                  acc ++ (if it.length = 0 then ["languageAvailabilities"] else [])) [])
              let target : Target := {
                blue_id := md.id
                abbreviation := abbreviation
                name := md.title
                resourceOrganisation := s.resourceOrganisation
                resourceProviders := s.resourceProviders
                webpage := s.webpage
                description := description
                tagline := s.tagline
                logo := s.logo
                multimedia := multimedia_composite
                useCases := use_cases_composite
                scientificDomains := doms.1
                categories := cats.1
                targetUsers := s.targetUsers
                accessTypes := s.accessTypes
                accessModes := s.accessModes
                tags := tags1
                geographicalAvailabilities := s.geographicalAvailabilities
                languageAvailabilities := s.languageAvailabilities
                resourceGeographicLocations := s.resourceGeographicLocations
                mainContact := {
                  firstName := rm.1.1
                  lastName := rm.1.2
                  email := s.maincontact_email
                  phone := s.maincontact_phone
                  position := s.maincontact_position
                  organisation := s.maincontact_organisation }
                publicContacts := [{
                  firstName := rp.1.1
                  lastName := rp.1.2
                  email := s.publiccontact_email
                  phone := s.publiccontact_phone
                  position := s.publiccontact_position
                  organisation := s.publiccontact_organisation }]
                helpdeskEmail := s.helpdeskEmail
                securityContactEmail := s.securityContactEmail
                trl := s.trl
                lifeCycleStatus := s.lifeCycleStatus
                certifications := s.certifications
                standards := s.standards
                openSourceTechnologies := s.openSourceTechnologies
                version := md.version
                lastUpdate := s.lastUpdate
                changeLog := s.changeLogs
                requiredResources := s.requiredResources
                relatedResources := s.relatedResources
                relatedPlatforms := s.relatedPlatforms
                fundingBody := s.fundingBodies
                fundingPrograms := s.fundingPrograms
                grantProjectNames := s.grantProjectNames
                helpdeskPage := s.helpdeskPage
                userManual := s.userManual
                termsOfUse := s.termsOfUse
                privacyPolicy := s.privacyPolicy
                accessPolicy := s.accessPolicy
                serviceLevel := s.serviceLevel
                trainingInformation := s.trainingInformation
                statusMonitoring := s.statusMonitoring
                maintenance := s.maintenance
                orderType := s.orderType
                order := s.order
                paymentModel := s.paymentModel
                pricing := s.pricing }
              .ok { target := target, messages := mE, missing := missing }

/-- The whole body of `extract_bluecloud_metadata` (everything the call
computes, including the two lists the source only logs). -/
def extract_bluecloud_metadata_full (md : SourceRecord) : Except String ExtractResult :=
  match extract_stage1 md with
  | .error e => .error e
  | .ok am =>
    match run_extras (initState am.2) md.extras with
    | .error e => .error e
    | .ok s => extract_finish md am.1 s

/-- The dynamically-typed value the Python function actually returns: either
the target record alone or a (target, diagnostics, missing) triple. -/
inductive PyReturn where
  | single (t : Target)
  | triple (t : Target) (diagnostics missing : List String)
  deriving Repr, DecidableEq

/-- The entry point as the source defines it: the function body runs and then
`return target` (mapping.py line 1498) hands back the target record alone. -/
def extract_bluecloud_metadata (md : SourceRecord) : Except String PyReturn :=
  match extract_bluecloud_metadata_full md with
  | .error e => .error e
  | .ok r => .ok (PyReturn.single r.target)

/-- A well-formed source record that the engine accepts: known service name,
both contact-name extras present (they must be, see `C10_no_main_contact`),
two geographical availabilities and a resource organisation needing the
forced correction. -/
def mdOK : SourceRecord where
  id := "id-1"
  title := "Ocean Patterns"
  name := "oceanpatterns"
  version := "1.0"
  notes := "A service."
  tags := []
  extras :=
    [("ContactInformation:Main Contact Name", "Buurman, Merret"),
     ("ContactInformation:Public Contact Name", "Noteboom, Jan Willem"),
     ("AvailabilityInformation:Geographical Availability", "Europe (EO)"),
     ("AvailabilityInformation:Geographical Availability", "Worldwide (WW)"),
     ("BasicInformation:Resource Organisation", "Some Other Org")]

/-- A record containing none of the placeholder sentinel values, and no
`ContactInformation:Main Contact Name` extra at all. -/
def mdNoContact : SourceRecord where
  id := "id-2"
  title := "Ocean Patterns"
  name := "oceanpatterns"
  version := "1.0"
  notes := "A service."
  tags := []
  extras := []

/-- A record whose multimedia extra is the placeholder sentinel value. -/
def mdSentinel : SourceRecord where
  id := "id-3"
  title := "Ocean Patterns"
  name := "oceanpatterns"
  version := "1.0"
  notes := "A service."
  tags := []
  extras := [("MarketingInformation:Multimedia", "www.mymedia.org")]

/-- A record whose geographical-availability value has no parenthesized code. -/
def mdGeoBad : SourceRecord where
  id := "id-4"
  title := "Ocean Patterns"
  name := "oceanpatterns"
  version := "1.0"
  notes := "A service."
  tags := []
  extras := [("AvailabilityInformation:Geographical Availability", "Europe")]

/-- A record whose resource-geographic-location value is a single token with
no parenthesized code. -/
def mdLocBad : SourceRecord where
  id := "id-5"
  title := "Ocean Patterns"
  name := "oceanpatterns"
  version := "1.0"
  notes := "A service."
  tags := []
  extras := [("LocationInformation:Resource Geographic Location", "Other")]

/-- Whether the entry point returned the bare target record. -/
def returnsSingle (e : Except String PyReturn) : Bool :=
  match e with
  | .ok (.single _) => true
  | _ => false

/-- Whether the entry point returned a (target, diagnostics, missing) triple. -/
def returnsTriple (e : Except String PyReturn) : Bool :=
  match e with
  | .ok (.triple _ _ _) => true
  | _ => false

/-- The geographical availabilities of a successful extraction. -/
def geoOf (e : Except String ExtractResult) : List String :=
  match e with
  | .ok r => r.target.geographicalAvailabilities
  | .error _ => []

/-- The result value of the accepted record `mdOK`. -/
def rOK : ExtractResult :=
  (extract_bluecloud_metadata_full mdOK).toOption.getD default

theorem string_length_eq_zero {s : String} : s.length = 0 ↔ s = "" := by
  cases s with
  | mk data =>
    simp [String.length, String.ext_iff, List.length_eq_zero]

theorem filter_tags_eq (tags tun cn dn : List String) :
    filter_tags tags tun cn dn = tags.filter (tag_keep tun cn dn) := by
  unfold filter_tags
  by_cases hl : tags.length = (tags.filter (tag_keep tun cn dn)).length
  · have heq : tags.filter (tag_keep tun cn dn) = tags :=
      (List.filter_sublist tags).eq_of_length hl.symm
    simp [hl, heq]
  · simp [hl]

/-- Claim C9: the tag filter is idempotent; it removes exactly the tags equal
to a collected target-user, category or domain display name or starting with
"Access Mode" / "Access Type", and it preserves the order of the remaining
tags (the output is a sublist of the input). -/
theorem C9_tag_filter :
    (∀ tags tun cn dn,
      filter_tags (filter_tags tags tun cn dn) tun cn dn = filter_tags tags tun cn dn) ∧
    (∀ tags tun cn dn x,
      x ∈ filter_tags tags tun cn dn ↔ x ∈ tags ∧ tag_keep tun cn dn x = true) ∧
    (∀ tags tun cn dn, List.Sublist (filter_tags tags tun cn dn) tags) := by
  refine ⟨?_, ?_, ?_⟩
  · intro tags tun cn dn
    rw [filter_tags_eq, filter_tags_eq]
    exact List.filter_eq_self.mpr (fun a ha => List.of_mem_filter ha)
  · intro tags tun cn dn x
    rw [filter_tags_eq]
    exact List.mem_filter
  · intro tags tun cn dn
    rw [filter_tags_eq]
    exact List.filter_sublist tags

theorem finish_description (md : SourceRecord) (ab : String) (s : MapState)
    (r : ExtractResult) (h : extract_finish md ab s = .ok r) :
    r.target.description = shorten_description md.notes := by
  unfold extract_finish at h
  by_cases hA : s.multimedia_url = "www.mymedia.org"
  · rw [if_pos hA] at h; cases h
  · rw [if_neg hA] at h
    by_cases hB : s.use_case_url = "www.ausecase.org"
    · rw [if_pos hB] at h; cases h
    · rw [if_neg hB] at h
      cases hm : s.maincontact_name with
      | none => simp only [hm] at h; cases h
      | some mcn =>
        simp only [hm] at h
        cases hp : s.publiccontact_name with
        | none => simp only [hp] at h; cases h
        | some pcn =>
          simp only [hp] at h
          cases hd : match_composites CV_DOM_MAPPING s.domain_ids s.subdomain_ids
              domain_mismatch_msgs domain_unused_msg with
          | error e => simp only [hd] at h; cases h
          | ok doms =>
            simp only [hd] at h
            cases hc : match_composites CV_CAT_MAPPING s.category_ids s.subcategory_ids
                category_mismatch_msgs category_unused_msg with
            | error e => simp only [hc] at h; cases h
            | ok cats =>
              simp only [hc] at h
              cases h
              rfl

/-- Claim C3: for descriptions longer than 1000 characters the mapped
description has length exactly 1000 and ends with the fixed webpage-referral
suffix; shorter descriptions pass through unchanged; and the target record's
description field is exactly `shorten_description` of the source `notes`. -/
theorem C3_description_truncation :
    (∀ md r, extract_bluecloud_metadata_full md = .ok r →
      r.target.description = shorten_description md.notes) ∧
    (∀ d : String, 1000 < d.length →
      (shorten_description d).length = 1000 ∧
      List.IsSuffix DESC_ADD.data (shorten_description d).data) ∧
    (∀ d : String, d.length ≤ 1000 → shorten_description d = d) := by
  refine ⟨?_, ?_, ?_⟩
  · intro md r h
    unfold extract_bluecloud_metadata_full at h
    cases h1 : extract_stage1 md with
    | error e => simp only [h1] at h; cases h
    | ok am =>
      simp only [h1] at h
      cases h2 : run_extras (initState am.2) md.extras with
      | error e => simp only [h2] at h; cases h
      | ok s =>
        simp only [h2] at h
        exact finish_description md am.1 s r h
  · intro d hd
    have hL : DESC_ADD.length ≤ 1000 := by decide
    have hdata : d.data.length = d.length := rfl
    unfold shorten_description
    rw [if_pos hd]
    constructor
    · show (d.data.take (1000 - DESC_ADD.length) ++ DESC_ADD.data).length = 1000
      rw [List.length_append, List.length_take]
      have hmin : min (1000 - DESC_ADD.length) d.data.length = 1000 - DESC_ADD.length :=
        Nat.min_eq_left (by omega)
      rw [hmin]
      have : DESC_ADD.data.length = DESC_ADD.length := rfl
      omega
    · exact List.suffix_append _ _
  · intro d hd
    unfold shorten_description
    rw [if_neg (by omega)]

/-- A 1001-character description used to witness the truncation theorem. -/
def dLong : String := ⟨List.replicate 1001 'a'⟩

set_option maxRecDepth 8192 in
/-- Witness for C3 at concrete inputs. -/
theorem C3_description_truncation_witness :
    rOK.target.description = shorten_description mdOK.notes ∧
    (1000 < dLong.length ∧
      ((shorten_description dLong).length = 1000 ∧
        List.IsSuffix DESC_ADD.data (shorten_description dLong).data)) ∧
    ("ab".length ≤ 1000 ∧ shorten_description "ab" = "ab") :=
  ⟨C3_description_truncation.1 mdOK rOK rfl,
   ⟨by decide, C3_description_truncation.2.1 dLong (by decide)⟩,
   ⟨by decide, C3_description_truncation.2.2 "ab" (by decide)⟩⟩

theorem match_children_none_pairs (pmap : List (String × String)) (parents : List String)
    (mm : String → String → List String) :
    ∀ (children : List String) (pairs : List (String × String))
      (used logs : List String),
    match_children pmap parents none mm children = .ok (pairs, used, logs) →
    pairs = children.filterMap (fun c =>
      match pyDictGet pmap c with
      | .ok q => if parents.contains q then some (q, c) else none
      | .error _ => none) := by
  intro children
  induction children with
  | nil =>
    intro pairs used logs h
    cases h
    rfl
  | cons c rest ih =>
    intro pairs used logs h
    unfold match_children at h
    cases hq : pyDictGet pmap c with
    | error e => simp only [hq] at h; cases h
    | ok q =>
      simp only [hq] at h
      cases hr : match_children pmap parents none mm rest with
      | error e => simp only [hr] at h; cases h
      | ok tr =>
        simp only [hr] at h
        by_cases hc : parents.contains q = true
        · rw [if_pos hc] at h
          cases h
          simp only [List.filterMap_cons, hq, hc, if_pos]
          exact congrArg _ (ih tr.1 tr.2.1 tr.2.2 (by rw [hr]))
        · rw [if_neg hc] at h
          cases h
          simp only [List.filterMap_cons, hq, Bool.not_eq_true] at hc ⊢
          rw [if_neg (by rw [hc]; exact Bool.false_ne_true)]
          exact ih tr.1 tr.2.1 tr.2.2 (by rw [hr])

/-- Claim C4: with exactly one parent id and exactly one child id whose
looked-up parent is not in the parent list, the composite matcher emits
exactly the forced pair (sole parent, sole child) and produces at least one
diagnostic (the two mismatch messages plus the unused-parent message); with
any other parent/child counts a mismatching child emits no pair: the output
pairs are exactly the children whose looked-up parent occurs in the parent
list. -/
theorem C4_composite_fallback :
    (∀ (mm : String → String → List String) (mu : String → String)
       (pmap : List (String × String)) (p c q : String),
       pyDictGet pmap c = .ok q → ([p] : List String).contains q = false →
       match_composites pmap [p] [c] mm mu = .ok ([(p, c)], mm q c ++ [mu p]) ∧
       (mm q c ++ [mu p]).length ≥ 1) ∧
    (∀ (mm : String → String → List String) (mu : String → String)
       (pmap : List (String × String)) (parents children : List String)
       (logs : List String) (prs : List (String × String)),
       ¬(parents.length = 1 ∧ children.length = 1) →
       match_composites pmap parents children mm mu = .ok (prs, logs) →
       prs = children.filterMap (fun ch =>
         match pyDictGet pmap ch with
         | .ok q => if parents.contains q then some (q, ch) else none
         | .error _ => none)) := by
  constructor
  · intro mm mu pmap p c q hq hc
    refine ⟨?_, by simp⟩
    unfold match_composites match_children
    simp only [hq, hc, List.length_singleton]
    simp [match_children]
  · intro mm mu pmap parents children logs prs hn h
    unfold match_composites at h
    have hforced : (if parents.length = 1 && children.length = 1 then
        some (parents.headD "", children.headD "") else (none : Option (String × String))) = none := by
      rw [if_neg]
      simp only [Bool.and_eq_true, decide_eq_true_eq]
      exact fun hx => hn ⟨hx.1, hx.2⟩
    rw [hforced] at h
    cases hmc : match_children pmap parents none mm children with
    | error e => simp only [hmc] at h; cases h
    | ok tr =>
      simp only [hmc] at h
      cases h
      exact match_children_none_pairs pmap parents mm children tr.1 tr.2.1 tr.2.2
        (by rw [hmc])

/-- Witness for C4 at concrete inputs: a one-parent/one-child mismatch forces
the single pair with diagnostics, and with zero parents a mismatching child
emits no pair. -/
theorem C4_composite_fallback_witness :
    (match_composites [("c1", "q1")] ["p1"] ["c1"] domain_mismatch_msgs domain_unused_msg =
      .ok ([("p1", "c1")], domain_mismatch_msgs "q1" "c1" ++ [domain_unused_msg "p1"]) ∧
     (domain_mismatch_msgs "q1" "c1" ++ [domain_unused_msg "p1"]).length ≥ 1) ∧
    ([] : List (String × String)) = (["c1"] : List String).filterMap (fun ch =>
      match pyDictGet [("c1", "q1")] ch with
      | .ok q => if ([] : List String).contains q then some (q, ch) else none
      | .error _ => none) :=
  ⟨C4_composite_fallback.1 domain_mismatch_msgs domain_unused_msg [("c1", "q1")]
      "p1" "c1" "q1" (by rfl) (by rfl),
   C4_composite_fallback.2 domain_mismatch_msgs domain_unused_msg [("c1", "q1")]
      [] ["c1"] (domain_mismatch_msgs "q1" "c1") [] (by simp) (by rfl)⟩

/-- Claim C5 (counterexample): a geographical-availability value with no
parenthesized code does not produce a missing-mandatory diagnostic — the
mapping aborts with the `ValueError` from the two-variable tuple unpacking of
`tmp.split(' (')` (mapping.py line 752). -/
theorem C5_codeless_value_raises :
    extract_bluecloud_metadata_full mdGeoBad =
      .error "ValueError: not enough values to unpack" := rfl

/-- Claim C5 (amended): a value that splits on `" ("` into exactly two parts
maps to the second part with trailing `')'` stripped (so "Europe (EO)" yields
"EO" and "Worldwide (WW)" yields "WW", as the accepted record `mdOK` shows);
a value with no `" ("` separator raises `ValueError` instead of producing a
diagnostic; the missing-mandatory diagnostic arises only for a value whose
parsed code is empty. -/
theorem C5_availability_parsing :
    (∀ v a b, pySplit (pyStrip v) " (" = [a, b] →
      parse_avail v = .ok (a, pyRstripParen b)) ∧
    (∀ v a, pySplit (pyStrip v) " (" = [a] →
      parse_avail v = .error "ValueError: not enough values to unpack") ∧
    geoOf (extract_bluecloud_metadata_full mdOK) = ["EO", "WW"] ∧
    (∀ st st' v a, extras_step st "AvailabilityInformation:Geographical Availability" v = .ok st' →
      parse_avail v = .ok (a, "") →
      st'.messages = st.messages ++ ["Empty string passed for mandatory Geographical Availability"] ∧
      st'.geographicalAvailabilities = st.geographicalAvailabilities) := by
  refine ⟨?_, ?_, rfl, ?_⟩
  · intro v a b h
    unfold parse_avail
    simp only []
    rw [h]
  · intro v a h
    unfold parse_avail
    simp only []
    rw [h]
  · intro st st' v a h hp
    replace h : step_geographical_availability st v = Except.ok st' := h
    unfold step_geographical_availability at h
    rw [hp] at h
    simp only [String.length] at h
    cases h
    exact ⟨rfl, rfl⟩

/-- Witness for C5 at concrete inputs. -/
theorem C5_availability_parsing_witness :
    parse_avail "Europe (EO)" = .ok ("Europe", pyRstripParen "EO)") ∧
    parse_avail "Europe" = .error "ValueError: not enough values to unpack" ∧
    ((initState []).messages ++ ["Empty string passed for mandatory Geographical Availability"] =
        (initState []).messages ++ ["Empty string passed for mandatory Geographical Availability"] ∧
      (initState []).geographicalAvailabilities = (initState []).geographicalAvailabilities) :=
  ⟨C5_availability_parsing.1 "Europe (EO)" "Europe" "EO)" rfl,
   C5_availability_parsing.2.1 "Europe" "Europe" rfl,
   by
     have h := C5_availability_parsing.2.2.2 (initState [])
       { initState [] with messages := (initState []).messages ++
           ["Empty string passed for mandatory Geographical Availability"] }
       "Europe ()" "Europe" rfl rfl
     exact ⟨h.1, h.2⟩⟩

/-- Claim C6: a resource-geographic-location value that is a single token with
no parenthesized code makes the mapping raise: line 799 calls
`collected_messages(msg)` — calling the list object — which is a `TypeError`,
where the claim (and the spec) say the value is tolerated, a diagnostic is
appended and the raw display name is kept. -/
theorem C6_location_branch_raises :
    extract_bluecloud_metadata_full mdLocBad =
      .error "TypeError: list object is not callable" := rfl

/-- Claim C7 (counterexample): for "Kevin Balem" the splitter returns
("Kevin", "Balem") but appends nothing to the caller-supplied diagnostics
collection — the "not comma-separated" message goes to the logger only
(mapping.py line 182), so "exactly one diagnostic appended" fails. -/
theorem C7_space_name_appends_nothing :
    get_name_from_val "Kevin Balem" "maincontact_name" [] =
      (("Kevin", "Balem"), [], ["Name not comma-separated: \"Kevin Balem\""]) := rfl

/-- Claim C7 (amended): the splitter is total and satisfies
split("Buurman, Merret") = ("Merret", "Buurman"),
split("Kevin Balem") = ("Kevin", "Balem") — with zero diagnostics appended to
the caller-supplied collection and exactly one warning logged —,
split("") = ("", "") with zero diagnostics, and
split("Noteboom, Jan Willem") = ("Jan Willem", "Noteboom"). -/
theorem C7_name_split_cases :
    get_name_from_val "Buurman, Merret" "n" [] = (("Merret", "Buurman"), [], []) ∧
    get_name_from_val "Kevin Balem" "n" [] =
      (("Kevin", "Balem"), [], ["Name not comma-separated: \"Kevin Balem\""]) ∧
    get_name_from_val "" "n" [] = (("", ""), [], []) ∧
    get_name_from_val "Noteboom, Jan Willem" "n" [] =
      (("Jan Willem", "Noteboom"), [], []) :=
  ⟨rfl, rfl, rfl, rfl⟩

/-- Claim C8 (counterexample): the value "Blue-Cloud" is normalized to
"blue-cloud" but the correction message is only logged at debug level — the
appended-diagnostics component is empty, so "with a diagnostic recorded in
the diagnostics list" fails. -/
theorem C8_blue_cloud_appends_nothing :
    resource_organisation_case "Blue-Cloud" =
      ("blue-cloud", [],
        ["resourceOrganisation: Corrected field content: \"Blue-Cloud\" -> \"blue-cloud\"!"]) := rfl

/-- Claim C8 (amended): the exact value "blue-cloud" is kept with no message;
"Blue-Cloud" is normalized to "blue-cloud" with the correction logged at
debug level but nothing appended to the diagnostics list; an empty value
appends the missing-field diagnostic; every other non-empty value is forcibly
replaced by "blue-cloud" with two diagnostics appended. -/
theorem C8_resource_organisation_cases (v : String) :
    (pyStrip v = "blue-cloud" →
      resource_organisation_case v =
        ("blue-cloud", [], ["resourceOrganisation: Is already \"blue-cloud\", great!"])) ∧
    (pyStrip v = "Blue-Cloud" →
      resource_organisation_case v =
        ("blue-cloud", [],
         ["resourceOrganisation: Corrected field content: \"Blue-Cloud\" -> \"blue-cloud\"!"])) ∧
    (pyStrip v = "" →
      resource_organisation_case v = ("", ["resourceOrganisation is an empty string."], [])) ∧
    (pyStrip v ≠ "blue-cloud" → pyStrip v ≠ "Blue-Cloud" → pyStrip v ≠ "" →
      (resource_organisation_case v).1 = "blue-cloud" ∧
      (resource_organisation_case v).2.1.length = 2) := by
  unfold resource_organisation_case
  refine ⟨?_, ?_, ?_, ?_⟩
  · intro h; rw [h]; rfl
  · intro h; rw [h]; rfl
  · intro h; rw [h]; rfl
  · intro h1 h2 h3
    rw [if_neg h1, if_neg h2, if_neg (fun hz => h3 (string_length_eq_zero.mp hz))]
    exact ⟨rfl, rfl⟩

/-- Witness for C8 at the concrete input "Some Other Org". -/
theorem C8_resource_organisation_cases_witness :
    (resource_organisation_case "Some Other Org").1 = "blue-cloud" ∧
    (resource_organisation_case "Some Other Org").2.1.length = 2 :=
  (C8_resource_organisation_cases "Some Other Org").2.2.2
    (by decide) (by decide) (by decide)

/-- Claim C1 (counterexample): the accepted record `mdOK` is mapped to a bare
target record, not to a (target, diagnostics, missing) triple — the source
ends with `return target` (mapping.py line 1498). -/
theorem C1_returns_single_counterexample :
    returnsSingle (extract_bluecloud_metadata mdOK) = true ∧
    returnsTriple (extract_bluecloud_metadata mdOK) = false := ⟨rfl, rfl⟩

/-- Claim C1 (amended): for every accepted source record the entry point
returns the target record alone; the diagnostics list and the
missing-mandatory list are computed (and logged) but are not part of the
returned value. -/
theorem C1_returns_target_alone (md : SourceRecord) (r : ExtractResult)
    (h : extract_bluecloud_metadata_full md = .ok r) :
    extract_bluecloud_metadata md = .ok (PyReturn.single r.target) := by
  unfold extract_bluecloud_metadata
  rw [h]

/-- Witness for C1 at the accepted record `mdOK`. -/
theorem C1_returns_target_alone_witness :
    extract_bluecloud_metadata mdOK = .ok (PyReturn.single rOK.target) :=
  C1_returns_target_alone mdOK rOK rfl

/-- Claim C2 (counterexample): a record containing no placeholder sentinel
value at all can still make the engine raise — `mdNoContact` has no extras,
so the unconditional read of the local `maincontact_name` (mapping.py line
1239) fails, refuting "raises if and only if a sentinel is present". -/
theorem C2_raises_without_sentinel :
    extract_bluecloud_metadata_full mdNoContact =
      .error "UnboundLocalError: local variable maincontact_name referenced before assignment" := rfl

/-- Claim C2 (amended): if the extras loop completes with the multimedia URL
or the use-case URL equal to its placeholder sentinel, the engine raises (the
hard stops at mapping.py lines 1200-1206 and 1221-1227); the absence of
sentinels, however, does not guarantee completion. -/
theorem C2_sentinel_raises (md : SourceRecord) (am : String × List String) (s : MapState)
    (h1 : extract_stage1 md = .ok am)
    (h2 : run_extras (initState am.2) md.extras = .ok s)
    (h3 : s.multimedia_url = "www.mymedia.org" ∨ s.use_case_url = "www.ausecase.org") :
    (extract_bluecloud_metadata_full md).isOk = false := by
  unfold extract_bluecloud_metadata_full
  simp only [h1, h2]
  unfold extract_finish
  by_cases hA : s.multimedia_url = "www.mymedia.org"
  · rw [if_pos hA]; rfl
  · rw [if_neg hA]
    rcases h3 with h3 | h3
    · exact absurd h3 hA
    · rw [if_pos h3]
      rfl

/-- The loop state reached on `mdSentinel`'s extras: the sentinel multimedia
URL is stored and its failed URL check is on the messages list. -/
def sSentinel : MapState :=
  { initState [] with
      multimedia_url := "www.mymedia.org",
      messages := ["Must be a URL: \"multimedia_url\" (\"www.mymedia.org\")"] }

/-- Witness for C2 at the concrete record `mdSentinel`. -/
theorem C2_sentinel_raises_witness :
    (extract_bluecloud_metadata_full mdSentinel).isOk = false :=
  C2_sentinel_raises mdSentinel ("oceanpatterns", []) sSentinel rfl rfl (Or.inl rfl)

set_option maxHeartbeats 4000000 in
theorem extras_step_maincontact (st : MapState) (k v : String) (st' : MapState)
    (hk : k ≠ "ContactInformation:Main Contact Name")
    (h : extras_step st k v = .ok st') :
    st'.maincontact_name = st.maincontact_name := by
  delta extras_step at h
  by_cases h0 : k = "BasicInformation:Resource Organisation"
  · rw [if_pos h0] at h
    simp only [step_resource_organisation] at h
    repeat' split at h
    all_goals (cases h <;> rfl)
  · rw [if_neg h0] at h
    by_cases h1 : k = "BasicInformation:Resource Provider"
    · rw [if_pos h1] at h
      simp only [step_resource_provider] at h
      repeat' split at h
      all_goals (cases h <;> rfl)
    · rw [if_neg h1] at h
      by_cases h2 : k = "BasicInformation:Webpage"
      · rw [if_pos h2] at h
        simp only [step_webpage] at h
        repeat' split at h
        all_goals (cases h <;> rfl)
      · rw [if_neg h2] at h
        by_cases h3 : k = "MarketingInformation:Tagline"
        · rw [if_pos h3] at h
          simp only [step_tagline] at h
          repeat' split at h
          all_goals (cases h <;> rfl)
        · rw [if_neg h3] at h
          by_cases h4 : k = "MarketingInformation:Logo"
          · rw [if_pos h4] at h
            simp only [step_logo] at h
            repeat' split at h
            all_goals (cases h <;> rfl)
          · rw [if_neg h4] at h
            by_cases h5 : k = "MarketingInformation:Multimedia"
            · rw [if_pos h5] at h
              simp only [step_multimedia] at h
              repeat' split at h
              all_goals (cases h <;> rfl)
            · rw [if_neg h5] at h
              by_cases h6 : k = "MarketingInformation:Multimedia Name"
              · rw [if_pos h6] at h
                simp only [step_multimedia_name] at h
                repeat' split at h
                all_goals (cases h <;> rfl)
              · rw [if_neg h6] at h
                by_cases h7 : k = "MarketingInformation:Use Case"
                · rw [if_pos h7] at h
                  simp only [step_use_case] at h
                  repeat' split at h
                  all_goals (cases h <;> rfl)
                · rw [if_neg h7] at h
                  by_cases h8 : k = "MarketingInformation:Use Case Name"
                  · rw [if_pos h8] at h
                    simp only [step_use_case_name] at h
                    repeat' split at h
                    all_goals (cases h <;> rfl)
                  · rw [if_neg h8] at h
                    by_cases h9 : k = "ClassificationInformation:Scientific Domain"
                    · rw [if_pos h9] at h
                      simp only [step_scientific_domain] at h
                      repeat' split at h
                      all_goals (cases h <;> rfl)
                    · rw [if_neg h9] at h
                      by_cases h10 : k = "ClassificationInformation:Scientific Subdomain"
                      · rw [if_pos h10] at h
                        simp only [step_scientific_subdomain] at h
                        repeat' split at h
                        all_goals (cases h <;> rfl)
                      · rw [if_neg h10] at h
                        by_cases h11 : k = "ClassificationInformation:Category"
                        · rw [if_pos h11] at h
                          simp only [step_category] at h
                          repeat' split at h
                          all_goals (cases h <;> rfl)
                        · rw [if_neg h11] at h
                          by_cases h12 : k = "ClassificationInformation:Subcategory"
                          · rw [if_pos h12] at h
                            simp only [step_subcategory] at h
                            repeat' split at h
                            all_goals (cases h <;> rfl)
                          · rw [if_neg h12] at h
                            by_cases h13 : k = "ClassificationInformation:Target User"
                            · rw [if_pos h13] at h
                              simp only [step_target_user] at h
                              repeat' split at h
                              all_goals (cases h <;> rfl)
                            · rw [if_neg h13] at h
                              by_cases h14 : k = "ClassificationInformation:Access Type"
                              · rw [if_pos h14] at h
                                simp only [step_access_type] at h
                                repeat' split at h
                                all_goals (cases h <;> rfl)
                              · rw [if_neg h14] at h
                                by_cases h15 : k = "ClassificationInformation:Access Mode"
                                · rw [if_pos h15] at h
                                  simp only [step_access_mode] at h
                                  repeat' split at h
                                  all_goals (cases h <;> rfl)
                                · rw [if_neg h15] at h
                                  by_cases h16 : k = "AvailabilityInformation:Geographical Availability"
                                  · rw [if_pos h16] at h
                                    simp only [step_geographical_availability] at h
                                    repeat' split at h
                                    all_goals (cases h <;> rfl)
                                  · rw [if_neg h16] at h
                                    by_cases h17 : k = "AvailabilityInformation:Language Availability"
                                    · rw [if_pos h17] at h
                                      simp only [step_language_availability] at h
                                      repeat' split at h
                                      all_goals (cases h <;> rfl)
                                    · rw [if_neg h17] at h
                                      by_cases h18 : k = "LocationInformation:Resource Geographic Location"
                                      · rw [if_pos h18] at h
                                        simp only [step_resource_geographic_location] at h
                                        repeat' split at h
                                        all_goals (cases h <;> rfl)
                                      · rw [if_neg h18] at h
                                        by_cases h19 : k = "ContactInformation:Main Contact Name"
                                        · exact absurd h19 hk
                                        · rw [if_neg h19] at h
                                          by_cases h20 : k = "ContactInformation:Main Contact Email"
                                          · rw [if_pos h20] at h
                                            simp only [step_main_contact_email] at h
                                            repeat' split at h
                                            all_goals (cases h <;> rfl)
                                          · rw [if_neg h20] at h
                                            by_cases h21 : k = "ContactInformation:Main Contact Phone"
                                            · rw [if_pos h21] at h
                                              simp only [step_main_contact_phone] at h
                                              repeat' split at h
                                              all_goals (cases h <;> rfl)
                                            · rw [if_neg h21] at h
                                              by_cases h22 : k = "ContactInformation:Main Contact Position"
                                              · rw [if_pos h22] at h
                                                simp only [step_main_contact_position] at h
                                                repeat' split at h
                                                all_goals (cases h <;> rfl)
                                              · rw [if_neg h22] at h
                                                by_cases h23 : k = "ContactInformation:Main Contact Organisation"
                                                · rw [if_pos h23] at h
                                                  simp only [step_main_contact_organisation] at h
                                                  repeat' split at h
                                                  all_goals (cases h <;> rfl)
                                                · rw [if_neg h23] at h
                                                  by_cases h24 : k = "ContactInformation:Public Contact Name"
                                                  · rw [if_pos h24] at h
                                                    simp only [step_public_contact_name] at h
                                                    repeat' split at h
                                                    all_goals (cases h <;> rfl)
                                                  · rw [if_neg h24] at h
                                                    by_cases h25 : k = "ContactInformation:Public Contact Email"
                                                    · rw [if_pos h25] at h
                                                      simp only [step_public_contact_email] at h
                                                      repeat' split at h
                                                      all_goals (cases h <;> rfl)
                                                    · rw [if_neg h25] at h
                                                      by_cases h26 : k = "ContactInformation:Public Contact Phone"
                                                      · rw [if_pos h26] at h
                                                        simp only [step_public_contact_phone] at h
                                                        repeat' split at h
                                                        all_goals (cases h <;> rfl)
                                                      · rw [if_neg h26] at h
                                                        by_cases h27 : k = "ContactInformation:Public Contact Position"
                                                        · rw [if_pos h27] at h
                                                          simp only [step_public_contact_position] at h
                                                          repeat' split at h
                                                          all_goals (cases h <;> rfl)
                                                        · rw [if_neg h27] at h
                                                          by_cases h28 : k = "ContactInformation:Public Contact Organisation"
                                                          · rw [if_pos h28] at h
                                                            simp only [step_public_contact_organisation] at h
                                                            repeat' split at h
                                                            all_goals (cases h <;> rfl)
                                                          · rw [if_neg h28] at h
                                                            by_cases h29 : k = "ContactInformation:Helpdesk Email"
                                                            · rw [if_pos h29] at h
                                                              simp only [step_helpdesk_email] at h
                                                              repeat' split at h
                                                              all_goals (cases h <;> rfl)
                                                            · rw [if_neg h29] at h
                                                              by_cases h30 : k = "ContactInformation:Security Contact Email"
                                                              · rw [if_pos h30] at h
                                                                simp only [step_security_contact_email] at h
                                                                repeat' split at h
                                                                all_goals (cases h <;> rfl)
                                                              · rw [if_neg h30] at h
                                                                by_cases h31 : k = "MaturityInformation:Technology Readiness Level"
                                                                · rw [if_pos h31] at h
                                                                  simp only [step_technology_readiness_level] at h
                                                                  repeat' split at h
                                                                  all_goals (cases h <;> rfl)
                                                                · rw [if_neg h31] at h
                                                                  by_cases h32 : k = "MaturityInformation:Life Cycle Status"
                                                                  · rw [if_pos h32] at h
                                                                    simp only [step_life_cycle_status] at h
                                                                    repeat' split at h
                                                                    all_goals (cases h <;> rfl)
                                                                  · rw [if_neg h32] at h
                                                                    by_cases h33 : k = "MaturityInformation:Certifications"
                                                                    · rw [if_pos h33] at h
                                                                      simp only [step_certifications] at h
                                                                      repeat' split at h
                                                                      all_goals (cases h <;> rfl)
                                                                    · rw [if_neg h33] at h
                                                                      by_cases h34 : k = "MaturityInformation:Standards"
                                                                      · rw [if_pos h34] at h
                                                                        simp only [step_standards] at h
                                                                        repeat' split at h
                                                                        all_goals (cases h <;> rfl)
                                                                      · rw [if_neg h34] at h
                                                                        by_cases h35 : k = "MaturityInformation:Open Source Technologies"
                                                                        · rw [if_pos h35] at h
                                                                          simp only [step_open_source_technologies] at h
                                                                          repeat' split at h
                                                                          all_goals (cases h <;> rfl)
                                                                        · rw [if_neg h35] at h
                                                                          by_cases h36 : k = "MaturityInformation:Last Update"
                                                                          · rw [if_pos h36] at h
                                                                            simp only [step_last_update] at h
                                                                            repeat' split at h
                                                                            all_goals (cases h <;> rfl)
                                                                          · rw [if_neg h36] at h
                                                                            by_cases h37 : k = "MaturityInformation:Change Log"
                                                                            · rw [if_pos h37] at h
                                                                              simp only [step_change_log] at h
                                                                              repeat' split at h
                                                                              all_goals (cases h <;> rfl)
                                                                            · rw [if_neg h37] at h
                                                                              by_cases h38 : k = "DependenciesInformation:Required Resources"
                                                                              · rw [if_pos h38] at h
                                                                                simp only [step_required_resources] at h
                                                                                repeat' split at h
                                                                                all_goals (cases h <;> rfl)
                                                                              · rw [if_neg h38] at h
                                                                                by_cases h39 : k = "DependenciesInformation:Related Resources"
                                                                                · rw [if_pos h39] at h
                                                                                  simp only [step_related_resources] at h
                                                                                  repeat' split at h
                                                                                  all_goals (cases h <;> rfl)
                                                                                · rw [if_neg h39] at h
                                                                                  by_cases h40 : k = "DependenciesInformation:Related Platforms"
                                                                                  · rw [if_pos h40] at h
                                                                                    simp only [step_related_platforms] at h
                                                                                    repeat' split at h
                                                                                    all_goals (cases h <;> rfl)
                                                                                  · rw [if_neg h40] at h
                                                                                    by_cases h41 : k = "DependenciesInformation:NONE YET TODO WIP"
                                                                                    · rw [if_pos h41] at h
                                                                                      simp only [step_none_yet_todo_wip] at h
                                                                                      repeat' split at h
                                                                                      all_goals (cases h <;> rfl)
                                                                                    · rw [if_neg h41] at h
                                                                                      by_cases h42 : k = "AttributionInformation:Funding Body"
                                                                                      · rw [if_pos h42] at h
                                                                                        simp only [step_funding_body] at h
                                                                                        repeat' split at h
                                                                                        all_goals (cases h <;> rfl)
                                                                                      · rw [if_neg h42] at h
                                                                                        by_cases h43 : k = "AttributionInformation:Funding Program"
                                                                                        · rw [if_pos h43] at h
                                                                                          simp only [step_funding_program] at h
                                                                                          repeat' split at h
                                                                                          all_goals (cases h <;> rfl)
                                                                                        · rw [if_neg h43] at h
                                                                                          by_cases h44 : k = "AttributionInformation:Project"
                                                                                          · rw [if_pos h44] at h
                                                                                            simp only [step_project] at h
                                                                                            repeat' split at h
                                                                                            all_goals (cases h <;> rfl)
                                                                                          · rw [if_neg h44] at h
                                                                                            by_cases h45 : k = "ManagementInformation:Helpdesk Page"
                                                                                            · rw [if_pos h45] at h
                                                                                              simp only [step_helpdesk_page] at h
                                                                                              repeat' split at h
                                                                                              all_goals (cases h <;> rfl)
                                                                                            · rw [if_neg h45] at h
                                                                                              by_cases h46 : k = "ManagementInformation:User Manual"
                                                                                              · rw [if_pos h46] at h
                                                                                                simp only [step_user_manual] at h
                                                                                                repeat' split at h
                                                                                                all_goals (cases h <;> rfl)
                                                                                              · rw [if_neg h46] at h
                                                                                                by_cases h47 : k = "ManagementInformation:Terms Of Use"
                                                                                                · rw [if_pos h47] at h
                                                                                                  simp only [step_terms_of_use] at h
                                                                                                  repeat' split at h
                                                                                                  all_goals (cases h <;> rfl)
                                                                                                · rw [if_neg h47] at h
                                                                                                  by_cases h48 : k = "ManagementInformation:Privacy Policy"
                                                                                                  · rw [if_pos h48] at h
                                                                                                    simp only [step_privacy_policy] at h
                                                                                                    repeat' split at h
                                                                                                    all_goals (cases h <;> rfl)
                                                                                                  · rw [if_neg h48] at h
                                                                                                    by_cases h49 : k = "ManagementInformation:Access Policy"
                                                                                                    · rw [if_pos h49] at h
                                                                                                      simp only [step_access_policy] at h
                                                                                                      repeat' split at h
                                                                                                      all_goals (cases h <;> rfl)
                                                                                                    · rw [if_neg h49] at h
                                                                                                      by_cases h50 : k = "ManagementInformation:Service Level"
                                                                                                      · rw [if_pos h50] at h
                                                                                                        simp only [step_service_level] at h
                                                                                                        repeat' split at h
                                                                                                        all_goals (cases h <;> rfl)
                                                                                                      · rw [if_neg h50] at h
                                                                                                        by_cases h51 : k = "ManagementInformation:Resource Level"
                                                                                                        · rw [if_pos h51] at h
                                                                                                          simp only [step_resource_level] at h
                                                                                                          repeat' split at h
                                                                                                          all_goals (cases h <;> rfl)
                                                                                                        · rw [if_neg h51] at h
                                                                                                          by_cases h52 : k = "ManagementInformation:Training Information"
                                                                                                          · rw [if_pos h52] at h
                                                                                                            simp only [step_training_information] at h
                                                                                                            repeat' split at h
                                                                                                            all_goals (cases h <;> rfl)
                                                                                                          · rw [if_neg h52] at h
                                                                                                            by_cases h53 : k = "ManagementInformation:Status Monitoring"
                                                                                                            · rw [if_pos h53] at h
                                                                                                              simp only [step_status_monitoring] at h
                                                                                                              repeat' split at h
                                                                                                              all_goals (cases h <;> rfl)
                                                                                                            · rw [if_neg h53] at h
                                                                                                              by_cases h54 : k = "ManagementInformation:Maintenance"
                                                                                                              · rw [if_pos h54] at h
                                                                                                                simp only [step_maintenance] at h
                                                                                                                repeat' split at h
                                                                                                                all_goals (cases h <;> rfl)
                                                                                                              · rw [if_neg h54] at h
                                                                                                                by_cases h55 : k = "AccessOrderInformation:Order Type"
                                                                                                                · rw [if_pos h55] at h
                                                                                                                  simp only [step_order_type] at h
                                                                                                                  repeat' split at h
                                                                                                                  all_goals (cases h <;> rfl)
                                                                                                                · rw [if_neg h55] at h
                                                                                                                  by_cases h56 : k = "AccessOrderInformation:Order"
                                                                                                                  · rw [if_pos h56] at h
                                                                                                                    simp only [step_order] at h
                                                                                                                    repeat' split at h
                                                                                                                    all_goals (cases h <;> rfl)
                                                                                                                  · rw [if_neg h56] at h
                                                                                                                    by_cases h57 : k = "FinancialInformation:Payment Model"
                                                                                                                    · rw [if_pos h57] at h
                                                                                                                      simp only [step_payment_model] at h
                                                                                                                      repeat' split at h
                                                                                                                      all_goals (cases h <;> rfl)
                                                                                                                    · rw [if_neg h57] at h
                                                                                                                      by_cases h58 : k = "FinancialInformation:Pricing"
                                                                                                                      · rw [if_pos h58] at h
                                                                                                                        simp only [step_pricing] at h
                                                                                                                        repeat' split at h
                                                                                                                        all_goals (cases h <;> rfl)
                                                                                                                      · rw [if_neg h58] at h
                                                                                                                        cases h
                                                                                                                        rfl

theorem run_extras_maincontact :
    ∀ (extras : List (String × String)) (st s : MapState),
    (∀ kv ∈ extras, kv.1 ≠ "ContactInformation:Main Contact Name") →
    run_extras st extras = .ok s → s.maincontact_name = st.maincontact_name := by
  intro extras
  induction extras with
  | nil =>
    intro st s _ h
    cases h
    rfl
  | cons kv rest ih =>
    intro st s hk h
    unfold run_extras at h
    cases hs : extras_step st kv.1 kv.2 with
    | error e => rw [hs] at h; cases h
    | ok st1 =>
      rw [hs] at h
      have h1 := extras_step_maincontact st kv.1 kv.2 st1
        (hk kv (List.mem_cons_self kv rest)) hs
      have h2 := ih st1 s (fun x hx => hk x (List.mem_cons_of_mem kv hx)) h
      rw [h2, h1]

/-- Claim C10: a source record whose extras contain no
`ContactInformation:Main Contact Name` entry never completes: the local
`maincontact_name` is only assigned inside that extras branch (mapping.py
line 826) but is read unconditionally when the main contact is constructed
(line 1239), so the engine fails (with `UnboundLocalError` when it gets that
far, or with an earlier exception). -/
theorem C10_no_main_contact (md : SourceRecord)
    (hk : ∀ kv ∈ md.extras, kv.1 ≠ "ContactInformation:Main Contact Name") :
    (extract_bluecloud_metadata_full md).isOk = false := by
  unfold extract_bluecloud_metadata_full
  cases h1 : extract_stage1 md with
  | error e => rfl
  | ok am =>
    show (match run_extras (initState am.2) md.extras with
      | Except.error e => Except.error e
      | Except.ok s => extract_finish md am.1 s).isOk = false
    cases h2 : run_extras (initState am.2) md.extras with
    | error e => rfl
    | ok s =>
      have hm : s.maincontact_name = none :=
        run_extras_maincontact md.extras (initState am.2) s hk h2
      show (extract_finish md am.1 s).isOk = false
      unfold extract_finish
      by_cases hA : s.multimedia_url = "www.mymedia.org"
      · rw [if_pos hA]; rfl
      · rw [if_neg hA]
        by_cases hB : s.use_case_url = "www.ausecase.org"
        · rw [if_pos hB]; rfl
        · rw [if_neg hB]
          rw [hm]
          rfl

/-- Witness for C10 at the concrete record `mdNoContact` (empty extras). -/
theorem C10_no_main_contact_witness :
    (extract_bluecloud_metadata_full mdNoContact).isOk = false :=
  C10_no_main_contact mdNoContact (by intro kv hkv; cases hkv)
